import Mathlib

/-!
# Verification of the `swmming` SWMM-input writer

A shallow embedding of the `swmming` Python package (entity dataclasses
with `__post_init__` validation, fixed-column `as_inp` renderers,
per-section `make_inp` serializers and the `assemble_inp` document
assembler), together with proofs settling the frozen claims about it.

Modelling conventions:

* Python text is modelled as `List Char`; each `stream.write(...)` call
  becomes one element of a chunk trace `List (List Char)`.
* Python `float` values are modelled as exact rationals `ℚ`; the
  `"%.pf"` fixed-point conversion applied by format specifiers such as
  `{x: <10.3f}` is modelled by exact decimal rounding (half-to-even).
  `str(float)` (no format spec) is modelled by the shortest exact
  decimal form.  Values that are dynamically `int` vs `float` in Python
  (and therefore print differently) are modelled by `PyNum`.
* A dataclass construction (`__init__` followed by `__post_init__`) is
  modelled by a function returning `Except String α`: `.error` models a
  raised exception, `.ok` the validated (possibly updated) instance.
* Class identity, where it matters (`catchment.py` defines a local
  `Junction` class distinct from the exported `nodes.Junction`), is
  modelled by tagged sums carrying the same record.
-/

namespace Swmming

/-- Python text, one `Char` per character. -/
abbrev Chars := List Char

/-- Characters of a string literal. -/
def lit (s : String) : Chars := s.toList

/-- `n` spaces. -/
def spaces (n : Nat) : Chars := List.replicate n ' '

/-- Python `str.ljust` / the `<{w}` format specifier: pad on the right
with spaces up to width `w`; longer strings are left untouched
(no truncation). -/
def pyLjust (s : Chars) (w : Nat) : Chars := s ++ spaces (w - s.length)

/-- Decimal digits of a natural number, most significant first
(fuel-based long division). -/
def natCharsAux (fuel n : Nat) (acc : Chars) : Chars :=
  match fuel with
  | 0 => acc
  | f + 1 =>
    let d := Nat.digitChar (n % 10)
    if n / 10 = 0 then d :: acc else natCharsAux f (n / 10) (d :: acc)

/-- Python `str` of a non-negative integer. -/
def natChars (n : Nat) : Chars := natCharsAux (n + 1) n []

/-- Python `str` of an integer. -/
def intChars (z : Int) : Chars :=
  if z < 0 then '-' :: natChars z.natAbs else natChars z.toNat

/-- Round the fraction `n / d` (`d > 0`) to the nearest integer, ties to
even — the rounding applied by CPython's fixed-point float formatting.
Implemented on the numerator/denominator so that it reduces in the
kernel. -/
def roundHalfEvenFrac (n : Int) (d : Nat) : Int :=
  let f := Int.fdiv n d
  let r2 := 2 * (n - f * d)
  if r2 < d then f
  else if (d : Int) < r2 then f + 1
  else if f % 2 = 0 then f else f + 1

/-- Digits of `m` interpreted as a fixed-point number with `prec`
decimal places (`m` is the value scaled by `10^prec`). -/
def natFixed (m prec : Nat) : Chars :=
  natChars (m / 10 ^ prec) ++
    '.' :: (fracZeros (prec - (natChars (m % 10 ^ prec)).length) ++
      natChars (m % 10 ^ prec))
where
  /-- Leading zero padding for the fractional part. -/
  fracZeros (n : Nat) : Chars := List.replicate n '0'

/-- Python `"%.{prec}f"` applied to a float, with the float modelled as
an exact rational: exact decimal rounding of `q * 10^prec`, half to
even. -/
def fmtF (prec : Nat) (q : ℚ) : Chars :=
  let n := roundHalfEvenFrac (q.num * 10 ^ prec) q.den
  if n < 0 then '-' :: natFixed n.natAbs prec else natFixed n.toNat prec

/-- Smallest number of decimal places representing `q` exactly, if any
within float precision (`q.den` divides `10^p` since `q` is reduced). -/
def decPlaces (q : ℚ) : Option Nat :=
  (List.range 18).find? (fun p => 10 ^ p % q.den == 0)

/-- Python `str()`/`repr()` of a float (shortest round-tripping decimal),
modelled for floats whose value is an exact short decimal; such values
always print with at least one fractional digit (`str(150.0) = "150.0"`). -/
def pyFloatRepr (q : ℚ) : Chars :=
  match decPlaces q with
  | some 0 => intChars q.num ++ lit ".0"
  | some p => fmtF p q
  | none => fmtF 17 q

/-- A Python number that is dynamically either an `int` or a `float`
(the two print differently under `str`). -/
inductive PyNum where
  | int (z : Int)
  | float (q : ℚ)
deriving DecidableEq, Repr

/-- Python `str` of a `PyNum`. -/
def PyNum.str : PyNum → Chars
  | .int z => intChars z
  | .float q => pyFloatRepr q

/-- Python `"sub" in s` substring test. -/
def strContains (sub s : Chars) : Bool :=
  s.tails.any (fun t => sub.isPrefixOf t)

/-- Fuel-based splitting into consecutive batches (the fuel is an upper
bound on the number of batches, so `l.length` always suffices). -/
def batchedAux (n : Nat) : Nat → List α → List (List α)
  | 0, _ => []
  | _, [] => []
  | f + 1, x :: xs => (x :: xs.take (n - 1)) :: batchedAux n f (xs.drop (n - 1))

/-- `itertools.batched(l, n)`: split `l` into consecutive batches of
`n` elements, the last batch possibly shorter. -/
def batched (n : Nat) (l : List α) : List (List α) := batchedAux n l.length l

/-! ## Base topology (`inp_sections/base_topology.py`) -/

/-- `base_topology.Node`: a named point with an invert elevation. -/
structure Node where
  name : Chars
  elevation : ℚ
deriving DecidableEq, Repr

/-- `base_topology.Link`: a directed edge between two nodes. -/
structure Link where
  name : Chars
  from_node : Node
  to_node : Node
deriving DecidableEq, Repr

/-- `base_topology.Area`: a named polygonal region. -/
structure Area where
  name : Chars
deriving DecidableEq, Repr

/-! ## Tabular entities (`inp_sections/tabular.py`) -/

/-- `tabular.Curve`.  Its `__init__` raises unconditionally; the record
carries the `name` attribute that consumers (`Outfall.as_inp`,
`XSection.as_inp`) read from a curve instance. -/
structure Curve where
  name : Chars
deriving DecidableEq, Repr

/-- `Curve.__init__`: raises `NotImplementedError` unconditionally. -/
def curveInit : Except String Curve :=
  .error "Curve is not yet implemented"

/-- `tabular.Pattern` (unimplemented stand-in). -/
structure Pattern where
  name : Chars
deriving DecidableEq, Repr

/-- `Pattern.__init__`: raises `NotImplementedError` unconditionally
(the source reuses the `Curve` message verbatim). -/
def patternInit : Except String Pattern :=
  .error "Curve is not yet implemented"

/-- `tabular.Timeseries` record. -/
structure Timeseries where
  name : Chars
  time_ts : List ℚ
  value_ts : List ℚ
  date_ts : Chars := []
  hour_ts : Chars := []
  fname : Chars := []
  description : Chars := []
deriving DecidableEq, Repr

/-- `Timeseries.__post_init__`: the two data arrays must have equal
length. -/
def timeseriesPostInit (t : Timeseries) : Except String Timeseries :=
  if t.time_ts.length ≠ t.value_ts.length then
    .error "time and value must be the same length"
  else .ok t

/-! ## Snowpack (`inp_sections/gw.py`, not present under `src/`) -/

/-- Snow pack record (placeholder). -/
structure Snowpack where
deriving DecidableEq, Repr

/-- Modelled from the spec: the class `Snowpack` lives in
`inp_sections/gw.py`, which is not under `src/`; the spec lists snow
packs among the constructs "recognized by the legacy format but not
implemented by this core" that "fail unconditionally at construction". -/
def snowpackInit : Except String Snowpack :=
  .error "Snowpack is not yet implemented"

/-! ## Node entities (`inp_sections/nodes.py`) -/

/-- `nodes.Junction` record (a `Node` dataclass; inherited fields are
flattened). -/
structure Junction where
  name : Chars
  elevation : ℚ
  max_depth : ℚ := 0
  init_depth : ℚ := 0
  sur_depth : ℚ := 0
  aponded : PyNum := .int 0
  xcoord : Option ℚ := none
  ycoord : Option ℚ := none
deriving DecidableEq, Repr

/-- `Junction.as_inp`. -/
def Junction.asInp (j : Junction) : Chars :=
  pyLjust j.name 16 ++ ' ' ::
    (pyLjust (fmtF 3 j.elevation) 10 ++ ' ' ::
      (pyLjust (fmtF 2 j.max_depth) 10 ++ ' ' ::
        (pyLjust (fmtF 2 j.init_depth) 10 ++ ' ' ::
          (pyLjust (fmtF 2 j.sur_depth) 10 ++ ' ' ::
            pyLjust j.aponded.str 11))))

/-- `Junction.make_inp` as a trace of `stream.write` chunks. -/
def junctionMakeInp (junctions : List Junction) : List Chars :=
  lit "[JUNCTIONS]\n;;Name           Elevation  MaxDepth   InitDepth  SurDepth   Aponded    \n;;-------------- ---------- ---------- ---------- ---------- ---------- \n"
    :: junctions.map (fun j => j.asInp ++ ['\n'])

/-- The dynamic type of `Outfall.stage_data` (`None`, `float`, `Curve`
or `Timeseries`). -/
inductive StageData where
  | none
  | float (x : ℚ)
  | curve (c : Curve)
  | timeseries (t : Timeseries)
deriving DecidableEq, Repr

/-- `isinstance(stage_data, float)`. -/
def StageData.isFloat : StageData → Bool
  | .float _ => true
  | _ => false

/-- `isinstance(stage_data, Curve)`. -/
def StageData.isCurve : StageData → Bool
  | .curve _ => true
  | _ => false

/-- `isinstance(stage_data, Timeseries)`. -/
def StageData.isTimeseries : StageData → Bool
  | .timeseries _ => true
  | _ => false

/-- `typing.get_args(OutfallTypeType)` (`type_helpers.py`). -/
def outfallTypeTags : List Chars :=
  [lit "FREE", lit "NORMAL", lit "FIXED", lit "TIDAL", lit "TIMESERIES"]

/-- `nodes.Outfall` record. -/
structure Outfall where
  name : Chars
  elevation : ℚ
  type_of_outfall : Chars := lit "FREE"
  stage_data : StageData := .none
  gated : Chars := lit "NO"
  route_to : Option Area := none
deriving DecidableEq, Repr

/-- `Outfall.__post_init__` (`nodes.py`; `catchment.py` carries an
identical copy): the tag must be a known outfall type, the dynamic kind
of `stage_data` must fit the tag, and `gated` must be `NO`/`YES`. -/
def outfallPostInit (o : Outfall) : Except String Outfall :=
  if o.type_of_outfall ∉ outfallTypeTags then
    .error "Type of outfall must be one of FREE, NORMAL, FIXED, TIDAL, TIMESERIES"
  else if o.type_of_outfall = lit "FIXED" ∧ ¬ o.stage_data.isFloat then
    .error "stage_data must be a float if type_of_outfall is FIXED"
  else if o.type_of_outfall = lit "TIDAL" ∧ ¬ o.stage_data.isCurve then
    .error "stage_data must be a Curve object if type_of_outfall is TIDAL"
  else if o.type_of_outfall = lit "TIMESERIES" ∧ ¬ o.stage_data.isTimeseries then
    .error "stage_data must be a Timeseries object if type_of_outfall is TIMESERIES"
  else if (o.type_of_outfall = lit "FREE" ∨ o.type_of_outfall = lit "NORMAL") ∧
      o.stage_data ≠ .none then
    .error "stage_data must be None if type_of_outfall is FREE or NORMAL"
  else if o.gated ≠ lit "NO" ∧ o.gated ≠ lit "YES" then
    .error "Gated must be one of NO, YES"
  else .ok o

/-- The `str_stage_data` local of `Outfall.as_inp`.  The
`.none`-with-stage-requiring-tag combination is unreachable for
validated instances (the source would raise `UnboundLocalError`
there); it is rendered as the empty field. -/
def Outfall.stageField (o : Outfall) : Chars :=
  if o.type_of_outfall = lit "FREE" ∨ o.type_of_outfall = lit "NORMAL" then
    spaces 16
  else
    match o.stage_data with
    | .float x => pyLjust (fmtF 3 x) 16
    | .curve c => pyLjust c.name 16
    | .timeseries t => pyLjust t.name 16
    | .none => []

/-- The `str_route_to` local of `Outfall.as_inp`: an absent subcatchment
renders as the *empty* string, not as 16 blanks. -/
def Outfall.routeField (o : Outfall) : Chars :=
  match o.route_to with
  | some a => pyLjust a.name 16
  | none => []

/-- `Outfall.as_inp`. -/
def Outfall.asInp (o : Outfall) : Chars :=
  pyLjust o.name 16 ++ ' ' ::
    (pyLjust (fmtF 3 o.elevation) 10 ++ ' ' ::
      (pyLjust o.type_of_outfall 10 ++ ' ' ::
        (o.stageField ++ ' ' ::
          (pyLjust o.gated 8 ++ ' ' :: o.routeField))))

/-- `Outfall.make_inp` as a trace of `stream.write` chunks (the section
name and the comment block are two separate writes in the source). -/
def outfallMakeInp (outfalls : List Outfall) : List Chars :=
  lit "[OUTFALLS]\n" ::
    lit ";;Name           Elevation  Type       Stage Data       Gated    Route To        \n;;-------------- ---------- ---------- ---------------- -------- ----------------\n"
    :: outfalls.map (fun o => o.asInp ++ ['\n'])

/-- `nodes.Divider` record (a plain dataclass: it has *no*
`__post_init__` and does not raise). -/
structure Divider where
  name : Chars
  elevation : ℚ
  divided_link : Link
  divider_type : Chars
  qmin : Option ℚ := none
  dcurve : Option Curve := none
  ht : Option ℚ := none
  Cd : Option ℚ := none
  max_depth : ℚ := 0
  init_depth : ℚ := 0
  sur_depth : ℚ := 0
  aponded : ℚ := 0
deriving DecidableEq, Repr

/-- Construction of `nodes.Divider`: plain dataclass field assignment,
no validation, never raises. -/
def dividerInit (name : Chars) (elevation : ℚ) (divided_link : Link)
    (divider_type : Chars) (qmin : Option ℚ := none)
    (dcurve : Option Curve := none) (ht : Option ℚ := none)
    (Cd : Option ℚ := none) (max_depth : ℚ := 0) (init_depth : ℚ := 0)
    (sur_depth : ℚ := 0) (aponded : ℚ := 0) : Except String Divider :=
  .ok ⟨name, elevation, divided_link, divider_type, qmin, dcurve, ht, Cd,
    max_depth, init_depth, sur_depth, aponded⟩

/-- `nodes.Storage` (unimplemented stand-in). -/
structure Storage where
deriving DecidableEq, Repr

/-- `Storage.__init__`: raises `NotImplementedError` unconditionally. -/
def storageInit : Except String Storage :=
  .error "Storage is not yet implemented"

/-! ## Rain gages (`inp_sections/meteo.py`) -/

/-- A Python value that is dynamically a `str` or a number (used for
union-typed fields such as `Raingage.interval` and
`XSection.culvert`). -/
inductive PyVal where
  | s (v : Chars)
  | n (v : PyNum)
deriving DecidableEq, Repr

/-- Python `str` of a `PyVal`. -/
def PyVal.str : PyVal → Chars
  | .s v => v
  | .n v => v.str

/-- `meteo.Raingage`, in its constructed form: `mode` is the `_mode`
attribute derived by `__post_init__` (`"TIMESERIES"` when a timeseries
is attached, `"FILE"` when an external file is named). -/
structure Raingage where
  name : Chars
  form : Chars
  interval : PyVal
  scf : ℚ := 1
  tseries : Option Timeseries := none
  fname : Option Chars := none
  station_name : Option Chars := none
  units : Option Chars := none
  mode : Chars
deriving DecidableEq, Repr

/-- `Raingage.as_inp` (dispatch on the derived `_mode`; the fallthrough
returns Python `None`, rendered `"None"` by the f-string in
`make_inp`). -/
def Raingage.asInp (r : Raingage) : Chars :=
  if r.mode = lit "TIMESERIES" then
    pyLjust r.name 16 ++ ' ' :: pyLjust r.form 9 ++
      ' ' :: pyLjust r.interval.str 9 ++ ' ' :: pyLjust (fmtF 2 r.scf) 6 ++
      ' ' :: r.mode ++ ' ' ::
      (match r.tseries with | some t => t.name | none => lit "None") ++ [' ']
  else if r.mode = lit "FILE" then
    pyLjust r.name 16 ++ ' ' :: pyLjust r.form 9 ++
      ' ' :: pyLjust r.interval.str 9 ++ ' ' :: pyLjust (fmtF 2 r.scf) 6 ++
      ' ' :: r.mode ++ ' ' ::
      (match r.fname with | some f => f | none => lit "None") ++
      ' ' :: pyLjust (match r.station_name with | some s => s | none => lit "None") 10 ++
      ' ' :: pyLjust (match r.units with | some u => u | none => lit "None") 10
  else lit "None"

/-- `Raingage.make_inp` as a trace of `stream.write` chunks. -/
def raingageMakeInp (raingages : List Raingage) : List Chars :=
  lit "[RAINGAGES]\n;;Name           Format    Interval  SCF    Source    \n;;-------------- --------- --------- ------ ----------\n"
    :: raingages.map (fun r => r.asInp ++ ['\n'])

/-! ## Catchment entities (`inp_sections/catchment.py`)

`catchment.py` defines its *own* `Junction` class (line 13), distinct
from the exported `nodes.Junction` even though the two have identical
fields.  `Subcatchment.__post_init__` tests `isinstance(outlet,
Junction)` against that local class, so Python class identity is part of
the semantics; the possible outlet objects are modelled as a tagged sum
over one shared `Junction` record. -/

/-- A Python object supplied as `Subcatchment.outlet`. -/
inductive SubOutlet where
  | catchJunction (j : Junction)
  | nodesJunction (j : Junction)
  | outfall (o : Outfall)
  | subcatchment (name : Chars)
deriving DecidableEq, Repr

/-- The `.name` attribute of an outlet object. -/
def SubOutlet.name : SubOutlet → Chars
  | .catchJunction j => j.name
  | .nodesJunction j => j.name
  | .outfall o => o.name
  | .subcatchment n => n

/-- `isinstance(outlet, Junction)` against the class local to
`catchment.py`. -/
def SubOutlet.isCatchJunction : SubOutlet → Bool
  | .catchJunction _ => true
  | _ => false

/-- A Python object supplied as `Subcatchment.rain_gage` (a `Raingage`
or any other object). -/
inductive RaingageField where
  | raingage (r : Raingage)
  | notRaingage (objName : Chars)
deriving DecidableEq, Repr

/-- `isinstance(rain_gage, Raingage)`. -/
def RaingageField.isRaingage : RaingageField → Bool
  | .raingage _ => true
  | _ => false

/-- The `.name` attribute of the rain-gage field. -/
def RaingageField.name : RaingageField → Chars
  | .raingage r => r.name
  | .notRaingage n => n

/-- `catchment.Subcatchment` record. -/
structure Subcatchment where
  name : Chars
  rain_gage : RaingageField
  outlet : SubOutlet
  area : ℚ
  percent_imperv : ℚ
  width : ℚ
  slope : ℚ
  curb_length : ℚ := 0
  snow_pack : Option Snowpack := none
deriving DecidableEq, Repr

/-- `Subcatchment.__post_init__`: the outlet must be an instance of the
`Junction` class local to `catchment.py`, the rain gage a `Raingage`,
and a (truthy) snow pack is unsupported; afterwards `snow_pack` is
normalised to `""`. -/
def subcatchmentPostInit (s : Subcatchment) : Except String Subcatchment :=
  if ¬ s.outlet.isCatchJunction then
    .error "Outlet must be a Junction object"
  else if ¬ s.rain_gage.isRaingage then
    .error "Rain Gage must be a Raingage object"
  else if s.snow_pack.isSome then
    .error "Snowpack is not yet implemented"
  else .ok s

/-- `Subcatchment.as_inp` (on validated instances `snow_pack` is the
empty string, rendered as 16 spaces). -/
def Subcatchment.asInp (s : Subcatchment) : Chars :=
  pyLjust s.name 16 ++ ' ' :: pyLjust s.rain_gage.name 16 ++
    ' ' :: pyLjust s.outlet.name 16 ++ ' ' :: pyLjust (fmtF 2 s.area) 8 ++
    ' ' :: pyLjust (fmtF 2 s.percent_imperv) 8 ++
    ' ' :: pyLjust (fmtF 2 s.width) 8 ++ ' ' :: pyLjust (fmtF 4 s.slope) 8 ++
    ' ' :: pyLjust (fmtF 2 s.curb_length) 8 ++ ' ' :: pyLjust [] 16

/-- `Subcatchment.make_inp` as a trace of `stream.write` chunks. -/
def subcatchmentMakeInp (subcatchments : List Subcatchment) : List Chars :=
  lit "[SUBCATCHMENTS]\n" ::
    lit ";;Name           Rain Gage        Outlet           Area     %Imperv  Width    %Slope   CurbLen  SnowPack        \n;;-------------- ---------------- ---------------- -------- -------- -------- -------- -------- ----------------\n"
    :: subcatchments.map (fun s => s.asInp ++ ['\n'])

/-- `catchment.Subarea` record. -/
structure Subarea where
  subcatchment : Subcatchment
  nimp : ℚ
  nperv : ℚ
  simp : ℚ
  sperv : ℚ
  percent_zero : ℚ
  route_to : Chars := lit "OUTLET"
  pctrouted : ℚ := 100
deriving DecidableEq, Repr

/-- `Subarea.as_inp`. -/
def Subarea.asInp (a : Subarea) : Chars :=
  pyLjust a.subcatchment.name 16 ++ ' ' :: pyLjust (fmtF 4 a.nimp) 10 ++
    ' ' :: pyLjust (fmtF 4 a.nperv) 10 ++ ' ' :: pyLjust (fmtF 4 a.simp) 10 ++
    ' ' :: pyLjust (fmtF 4 a.sperv) 10 ++
    ' ' :: pyLjust (fmtF 2 a.percent_zero) 10 ++
    ' ' :: pyLjust a.route_to 10 ++ ' ' :: pyLjust (fmtF 2 a.pctrouted) 10

/-- `Subarea.make_inp` as a trace of `stream.write` chunks. -/
def subareaMakeInp (subareas : List Subarea) : List Chars :=
  lit "[SUBAREAS]\n" ::
    lit ";;Subcatchment   N-Imperv   N-Perv     S-Imperv   S-Perv     PctZero    RouteTo    PctRouted \n;;-------------- ---------- ---------- ---------- ---------- ---------- ---------- ----------\n"
    :: subareas.map (fun a => a.asInp ++ ['\n'])

/-- `typing.get_args(InfiltrationMethodType)` (`type_helpers.py`). -/
def infiltrationMethodTags : List Chars :=
  [lit "HORTON", lit "MODIFIED_HORTON", lit "GREEN_AMPT",
    lit "MODIFIED_GREEN_AMPT", lit "CURVE_NUMBER"]

/-- `catchment.Infiltration` record. -/
structure Infiltration where
  subcatchment : Subcatchment
  parameters : List ℚ
  method : Chars := []
deriving DecidableEq, Repr

/-- `Infiltration.__post_init__`: the method must be one of the five
recognised tags, and the parameter count is fixed per method family
(the family tests are Python substring tests `"HORTON" in method`,
etc.). -/
def infiltrationPostInit (i : Infiltration) : Except String Infiltration :=
  if i.method ∉ infiltrationMethodTags then
    .error "Method must be one of HORTON, MODIFIED_HORTON, GREEN_AMPT, MODIFIED_GREEN_AMPT, CURVE_NUMBER\nIf not specified then the infiltration method supplied in the [OPTIONS] section is used."
  else if strContains (lit "HORTON") i.method then
    if i.parameters.length ≠ 5 then
      .error (String.mk (i.method ++ lit " requires 5 parameters."))
    else .ok i
  else if strContains (lit "GREEN_AMPT") i.method then
    if i.parameters.length ≠ 3 then
      .error (String.mk (i.method ++ lit " requires 3 parameters."))
    else .ok i
  else if strContains (lit "CURVE_NUMBER") i.method then
    if i.parameters.length ≠ 3 then
      .error (String.mk (i.method ++
        lit " requires 3 parameters. The second parameter is not used though, so it can be any value"))
    else .ok i
  else .ok i

/-- `Infiltration.as_inp`. -/
def Infiltration.asInp (i : Infiltration) : Chars :=
  let params_str := List.intercalate [' '] (i.parameters.map (fun p => pyLjust (fmtF 2 p) 10))
  pyLjust i.subcatchment.name 16 ++ ' ' :: pyLjust params_str 54 ++ ' ' :: i.method

/-- `Infiltration.make_inp` as a trace of `stream.write` chunks. -/
def infiltrationMakeInp (infiltrations : List Infiltration) : List Chars :=
  lit "[INFILTRATION]\n" ::
    lit ";;Subcatchment   Param1     Param2     Param3     Param4     Param5    \n;;-------------- ---------- ---------- ---------- ---------- ----------\n"
    :: infiltrations.map (fun i => i.asInp ++ ['\n'])

/-! ## Link entities (`inp_sections/links.py`) -/

/-- `links.Conduit` record (a `Link` dataclass; inherited fields are
flattened). -/
structure Conduit where
  name : Chars
  from_node : Node
  to_node : Node
  length : ℚ
  roughness : ℚ
  in_offset : ℚ := 0
  out_offset : ℚ := 0
  init_flow : ℚ := 0
  max_flow : Option ℚ := none
deriving DecidableEq, Repr

/-- `Conduit.as_inp` (an absent `max_flow` renders as 10 spaces). -/
def Conduit.asInp (c : Conduit) : Chars :=
  let str_max_flow : Chars :=
    match c.max_flow with
    | some x => pyLjust (fmtF 2 x) 10
    | none => spaces 10
  pyLjust c.name 16 ++ ' ' :: pyLjust c.from_node.name 16 ++
    ' ' :: pyLjust c.to_node.name 16 ++ ' ' :: pyLjust (fmtF 2 c.length) 10 ++
    ' ' :: pyLjust (fmtF 5 c.roughness) 10 ++
    ' ' :: pyLjust (fmtF 2 c.in_offset) 10 ++
    ' ' :: pyLjust (fmtF 2 c.out_offset) 10 ++
    ' ' :: pyLjust (fmtF 2 c.init_flow) 10 ++ ' ' :: str_max_flow

/-- `Conduit.make_inp` as a trace of `stream.write` chunks. -/
def conduitMakeInp (conduits : List Conduit) : List Chars :=
  lit "[CONDUITS]\n" ::
    lit ";;Name           From Node        To Node          Length     Roughness  InOffset   OutOffset  InitFlow   MaxFlow   \n;;-------------- ---------------- ---------------- ---------- ---------- ---------- ---------- ---------- ----------\n"
    :: conduits.map (fun c => c.asInp ++ ['\n'])

/-- The five recognised weir types. -/
def weirTypeTags : List Chars :=
  [lit "TRANSVERSE", lit "SIDEFLOW", lit "V-NOTCH", lit "TRAPEZOIDAL",
    lit "ROADWAY"]

/-- `links.Weir` record. -/
structure Weir where
  name : Chars
  from_node : Node
  to_node : Node
  weir_type : Chars
  crest_height : ℚ
  cd : ℚ
  flap_gate : Chars := lit "NO"
  end_contractions : Int := 0
  cd2 : Option ℚ := none
  surcharge : Chars := lit "YES"
  road_width : Option ℚ := none
  road_surface : Option Chars := none
deriving DecidableEq, Repr

/-- Python truthiness of an optional float (`None` and `0.0` are
falsy). -/
def optRatTruthy : Option ℚ → Bool
  | none => false
  | some x => x != 0

/-- Python truthiness of an optional string (`None` and `""` are
falsy). -/
def optStrTruthy : Option Chars → Bool
  | none => false
  | some s => !s.isEmpty

/-- `Weir.__post_init__`: validates the weir type, defaults `cd2` to
`cd`, and for `ROADWAY` weirs forces `flap_gate`/`end_contractions`/
`cd2`/`surcharge` to fixed values and then requires truthy
`road_width`/`road_surface` with `road_surface ∈ {PAVED, GRAVEL}`. -/
def weirPostInit (w : Weir) : Except String Weir :=
  if w.weir_type ∉ weirTypeTags then
    .error "weir_type must be one of TRANSVERSE, SIDEFLOW, V-NOTCH, TRAPEZOIDAL, or ROADWAY"
  else
    let w1 := if w.cd2 = none then { w with cd2 := some w.cd } else w
    if w.weir_type = lit "ROADWAY" then
      let w2 := { w1 with
        flap_gate := lit "NO"
        end_contractions := 0
        cd2 := some 0
        surcharge := lit "NO" }
      if ¬ optRatTruthy w2.road_width ∨ ¬ optStrTruthy w2.road_surface then
        .error "Both road_width and road_surface must be specified if weir_type is ROADWAY"
      else if ¬ (w2.road_surface = some (lit "PAVED") ∨
          w2.road_surface = some (lit "GRAVEL")) then
        .error "road_surface must be one of PAVED or GRAVEL if weir_type is ROADWAY"
      else .ok w2
    else .ok w1

/-! ## Geometry entities (`inp_sections/geometry.py`) -/

/-- `geometry.Street` record. -/
structure Street where
  name : Chars
  Tcrown : ℚ
  Hcurb : ℚ
  Sx : ℚ
  nRoad : ℚ
  a : ℚ := 0
  W : ℚ := 0
  Sides : Int := 1
  Tback : ℚ := 0
  Sback : ℚ := 0
  nBack : ℚ := 0
deriving DecidableEq, Repr

/-- `Street.as_inp`. -/
def Street.asInp (s : Street) : Chars :=
  pyLjust s.name 16 ++ ' ' :: pyLjust (fmtF 2 s.Tcrown) 8 ++
    ' ' :: pyLjust (fmtF 2 s.Hcurb) 8 ++ ' ' :: pyLjust (fmtF 4 s.Sx) 8 ++
    ' ' :: pyLjust (fmtF 4 s.nRoad) 8 ++ ' ' :: pyLjust (fmtF 2 s.a) 8 ++
    ' ' :: pyLjust (fmtF 2 s.W) 8 ++ ' ' :: pyLjust (intChars s.Sides) 8 ++
    ' ' :: pyLjust (fmtF 2 s.Tback) 8 ++ ' ' :: pyLjust (fmtF 4 s.Sback) 8 ++
    ' ' :: pyLjust (fmtF 4 s.nBack) 8

/-- `Street.make_inp` as a trace of `stream.write` chunks. -/
def streetMakeInp (streets : List Street) : List Chars :=
  lit "[STREETS]\n" ::
    lit ";;Name           Tcrown   Hcurb    Sx       nRoad    a        W        Sides    Tback    Sback    nBack   \n;;-------------- -------- -------- -------- -------- -------- -------- -------- -------- -------- --------\n"
    :: streets.map (fun s => s.asInp ++ ['\n'])

/-- `geometry.Transect` record. -/
structure Transect where
  name : Chars
  station : List ℚ
  elevation : List ℚ
  nleft : ℚ
  nright : ℚ
  nchannel : ℚ
  xleft : ℚ
  xright : ℚ
  meander_modifier : ℚ := 0
  station_modifier : ℚ := 0
  elev_offset : PyNum := .int 0
deriving DecidableEq, Repr

/-- `Transect.__post_init__`: the two arrays must have equal length and
`xleft`/`xright` must each occur in `station`; on success the derived
`n_stations` attribute is set to the common length. -/
def transectPostInit (t : Transect) : Except String (Transect × Nat) :=
  if t.elevation.length ≠ t.station.length then
    .error "elevation and station must be the same length"
  else if t.xleft ∉ t.station then
    .error "xleft must be in station"
  else if t.xright ∉ t.station then
    .error "xright must be in station"
  else .ok (t, t.elevation.length)

/-- A transect together with its derived `n_stations` attribute (set
once by `__post_init__`). -/
structure ValidatedTransect where
  t : Transect
  n_stations : Nat
deriving DecidableEq, Repr

/-- The single write emitting the `;`, `NC` and `X1` lines of one
transect. -/
def transectBodyChunk (vt : ValidatedTransect) : Chars :=
  lit ";\nNC " ++ pyLjust (fmtF 4 vt.t.nleft) 11 ++
    ' ' :: pyLjust (fmtF 4 vt.t.nright) 10 ++
    ' ' :: pyLjust (fmtF 4 vt.t.nchannel) 10 ++
    '\n' :: 'X' :: '1' :: ' ' :: pyLjust vt.t.name 17 ++
    ' ' :: pyLjust (natChars vt.n_stations) 8 ++
    ' ' :: pyLjust (fmtF 2 vt.t.xleft) 8 ++
    ' ' :: pyLjust (fmtF 2 vt.t.xright) 8 ++
    lit " 0.0      0.0      " ++ pyLjust (fmtF 2 vt.t.meander_modifier) 8 ++
    ' ' :: pyLjust (fmtF 2 vt.t.station_modifier) 8 ++
    ' ' :: pyLjust vt.t.elev_offset.str 8 ++ ['\n']

/-- One `f"{elev: <8.2f} {stat: <8.2f} "` write of a station/elevation
pair on a `GR` line. -/
def grPairChunk (p : ℚ × ℚ) : Chars :=
  pyLjust (fmtF 2 p.1) 8 ++ ' ' :: pyLjust (fmtF 2 p.2) 8 ++ [' ']

/-- The batched station/elevation data of a transect, five pairs per
`GR` line (`zip(batched(elevation, 5), batched(station, 5))`). -/
def grBatches (t : Transect) : List (List ℚ × List ℚ) :=
  (batched 5 t.elevation).zip (batched 5 t.station)

/-- The writes emitted for the `GR` lines of one transect: per batch a
`"GR "` marker, one write per pair, and a newline. -/
def grChunks (t : Transect) : List Chars :=
  ((grBatches t).map (fun bp =>
    lit "GR " :: (bp.1.zip bp.2).map grPairChunk ++ [lit "\n"])).flatten

/-- All writes emitted for one transect. -/
def transectEntityChunks (vt : ValidatedTransect) : List Chars :=
  transectBodyChunk vt :: grChunks vt.t

/-- `Transect.make_inp` as a trace of `stream.write` chunks. -/
def transectMakeInp (transects : List ValidatedTransect) : List Chars :=
  lit "[TRANSECTS]\n;;Transect Data in HEC-2 format\n"
    :: (transects.map transectEntityChunks).flatten

/-- Modelled from the spec: `xsection_shapes.py` is not under `src/`.
Per §4.3/§5 of the spec the shape object is a variant over
`{Custom, Irregular, Street, standard geometric shapes}`; a geometric
shape renders its own tag and geometry parameters. -/
inductive XShape where
  | custom
  | irregular
  | street
  | geometric (tag : Chars) (geoms : List ℚ)
deriving DecidableEq, Repr

/-- Modelled from the spec: the shape's own `as_inp` fragment; the
`IRREGULAR` tag is rendered left-justified to 12 characters (visible in
the repository's `test_xsection` expected output), geometric shapes
append their geometry values. -/
def XShape.asInp : XShape → Chars
  | .custom => pyLjust (lit "CUSTOM") 12
  | .irregular => pyLjust (lit "IRREGULAR") 12
  | .street => pyLjust (lit "STREET") 12
  | .geometric tag geoms =>
    pyLjust tag 12 ++
      (geoms.map (fun g => ' ' :: pyLjust (fmtF 2 g) 10)).flatten

/-- `geometry.XSection` record (`link` is used only through its `name`;
a `Conduit` argument enters through its `Link` view). -/
structure XSection where
  link : Link
  shape : XShape
  barrels : Int := 1
  culvert : PyVal := .s []
  curve : Option Curve := none
  tsect : Option Transect := none
  street : Option Street := none
deriving DecidableEq, Repr

/-- `XSection.as_inp`.  The `none` reference cases are unreachable for
validated instances (the source would raise `AttributeError`); they are
rendered as the empty field. -/
def XSection.asInp (x : XSection) : Chars :=
  match x.shape with
  | .custom =>
    pyLjust x.link.name 16 ++ ' ' :: x.shape.asInp ++
      ' ' :: pyLjust (match x.curve with | some c => c.name | none => []) 16 ++
      ' ' :: pyLjust (intChars x.barrels) 10
  | .irregular =>
    pyLjust x.link.name 16 ++ ' ' :: x.shape.asInp ++
      ' ' :: pyLjust (match x.tsect with | some t => t.name | none => []) 16
  | .street =>
    pyLjust x.link.name 16 ++ ' ' :: x.shape.asInp ++
      ' ' :: pyLjust (match x.street with | some s => s.name | none => []) 16
  | .geometric _ _ =>
    pyLjust x.link.name 16 ++ ' ' :: x.shape.asInp ++
      ' ' :: pyLjust (intChars x.barrels) 10 ++ ' ' :: pyLjust x.culvert.str 10

/-- `XSection.make_inp` as a trace of `stream.write` chunks. -/
def xsectionMakeInp (xsections : List XSection) : List Chars :=
  lit "[XSECTIONS]\n" ::
    lit ";;Link           Shape        Geom1            Geom2      Geom3      Geom4      Barrels    Culvert   \n;;-------------- ------------ ---------------- ---------- ---------- ---------- ---------- ----------\n"
    :: xsections.map (fun x => x.asInp ++ ['\n'])

/-- `geometry.Inlet` record. -/
structure Inlet where
  name : Chars
  type : Chars
  length : Option ℚ := none
  width : Option ℚ := none
  height : Option ℚ := none
  type_grate : Option Chars := none
  aopen : Option ℚ := none
  vsplash : Option ℚ := none
  throat : Option Chars := none
  dcurve : Option Curve := none
  rcurve : Option Curve := none
deriving DecidableEq, Repr

/-- `Inlet.as_inp` (dispatch on the inlet type; `Option` fields are
present on validated instances in the branches that use them; the
final fallthrough returns Python `None`, rendered `"None"`). -/
def Inlet.asInp (i : Inlet) : Chars :=
  let q2 (x : Option ℚ) : Chars := pyLjust (fmtF 2 (x.getD 0)) 9
  if i.type = lit "GRATE" ∨ i.type = lit "DROP_GRATE" then
    if i.type_grate = some (lit "GENERIC") then
      pyLjust i.name 16 ++ ' ' :: pyLjust i.type 16 ++ ' ' :: q2 i.length ++
        ' ' :: q2 i.width ++ ' ' :: pyLjust (i.type_grate.getD []) 12 ++
        ' ' :: q2 i.aopen ++ ' ' :: q2 i.vsplash
    else
      pyLjust i.name 16 ++ ' ' :: pyLjust i.type 16 ++ ' ' :: q2 i.length ++
        ' ' :: q2 i.width ++ ' ' :: pyLjust (i.type_grate.getD []) 12
  else if i.type = lit "CURB" ∨ i.type = lit "DROP_CURB" then
    if i.type = lit "CURB" then
      pyLjust i.name 16 ++ ' ' :: pyLjust i.type 16 ++ ' ' :: q2 i.length ++
        ' ' :: q2 i.height ++ ' ' :: pyLjust (i.throat.getD []) 12
    else
      pyLjust i.name 16 ++ ' ' :: pyLjust i.type 16 ++ ' ' :: q2 i.length ++
        ' ' :: q2 i.height
  else if i.type = lit "SLOTTED" then
    pyLjust i.name 16 ++ ' ' :: pyLjust i.type 16 ++ ' ' :: q2 i.length ++
      ' ' :: q2 i.width
  else if i.type = lit "CUSTOM" then
    match i.dcurve with
    | some c => pyLjust i.name 16 ++ ' ' :: pyLjust i.type 16 ++
        ' ' :: pyLjust c.name 16
    | none => pyLjust i.name 16 ++ ' ' :: pyLjust i.type 16 ++
        ' ' :: pyLjust (match i.rcurve with | some c => c.name | none => []) 16
  else lit "None"

/-- `Inlet.make_inp` as a trace of `stream.write` chunks. -/
def inletMakeInp (inlets : List Inlet) : List Chars :=
  lit "[INLETS]\n;;Name           Type             Parameters:\n;;-------------- ---------------- -----------\n"
    :: inlets.map (fun i => i.asInp ++ ['\n'])

/-- `geometry.InletUsage` record. -/
structure InletUsage where
  conduit : Link
  inlet : Inlet
  node : Node
  number : Int := 1
  percent_clogged : ℚ := 0
  qmax : ℚ := 0
  alocal : ℚ := 0
  wlocal : ℚ := 0
  placement : Chars := lit "AUTOMATIC"
deriving DecidableEq, Repr

/-- `InletUsage.as_inp`. -/
def InletUsage.asInp (u : InletUsage) : Chars :=
  pyLjust u.conduit.name 16 ++ ' ' :: pyLjust u.inlet.name 16 ++
    ' ' :: pyLjust u.node.name 16 ++ ' ' :: pyLjust (intChars u.number) 9 ++
    ' ' :: pyLjust (fmtF 2 u.percent_clogged) 9 ++
    ' ' :: pyLjust (fmtF 2 u.qmax) 9 ++ ' ' :: pyLjust (fmtF 2 u.alocal) 9 ++
    ' ' :: pyLjust (fmtF 2 u.wlocal) 9 ++ ' ' :: pyLjust u.placement 19

/-- `InletUsage.make_inp` as a trace of `stream.write` chunks. -/
def inletUsageMakeInp (inlet_usages : List InletUsage) : List Chars :=
  lit "[INLET_USAGE]\n;;Conduit        Inlet            Node             Number    %Clogged  Qmax      aLocal    wLocal    Placement\n;;-------------- ---------------- ---------------- --------- --------- --------- --------- --------- --------- ---------\n"
    :: inlet_usages.map (fun u => u.asInp ++ ['\n'])

/-! ## Timeseries serialization (`inp_sections/tabular.py`) -/

/-- Whitespace-separated words of a string (the tokenisation underlying
`textwrap.wrap`'s default whitespace collapsing). -/
def pyWords (s : Chars) : List Chars :=
  (s.splitOnP (fun c => c.isWhitespace)).filter (fun w => !w.isEmpty)

/-- Greedy line filling of a word list to a maximum width. -/
def wrapGreedy (width : Nat) : List Chars → Chars → List Chars → List Chars
  | [], cur, acc => ((if cur.isEmpty then acc else cur :: acc)).reverse
  | w :: ws, cur, acc =>
    if cur.isEmpty then wrapGreedy width ws w acc
    else if cur.length + 1 + w.length ≤ width then
      wrapGreedy width ws (cur ++ ' ' :: w) acc
    else wrapGreedy width ws w (cur :: acc)

/-- `textwrap.wrap(s, width)` modelled as greedy word wrapping (words
longer than the width are kept whole rather than broken). -/
def pyWrap (s : Chars) (width : Nat) : List Chars :=
  wrapGreedy width (pyWords s) [] []

/-- The per-entry data-line writes of `Timeseries.make_inp`: the first
line carries the date, subsequent lines a blank date field. -/
def tsDataChunks (name : Chars) : Chars → List (ℚ × ℚ) → List Chars
  | _, [] => []
  | date, (t, v) :: rest =>
    (pyLjust name 16 ++ ' ' :: pyLjust date 10 ++
      ' ' :: pyLjust (fmtF 2 t) 10 ++ ' ' :: pyLjust (fmtF 3 v) 10 ++ ['\n'])
      :: tsDataChunks name [] rest

/-- All writes emitted for one timeseries: the wrapped description (or
one blank comment line) followed by the data lines. -/
def timeseriesEntityChunks (ts : Timeseries) : List Chars :=
  (if ts.description.isEmpty then [pyLjust (lit ";") 49 ++ ['\n']]
   else (pyWrap ts.description 48).map
     (fun c => ';' :: ' ' :: pyLjust c 47 ++ ['\n'])) ++
  tsDataChunks ts.name ts.date_ts (ts.time_ts.zip ts.value_ts)

/-- `Timeseries.make_inp` as a trace of `stream.write` chunks. -/
def timeseriesMakeInp (timeseries : List Timeseries) : List Chars :=
  lit "[TIMESERIES]\n;;Name           Date       Time       Value     \n;;-------------- ---------- ---------- ----------\n"
    :: (timeseries.map timeseriesEntityChunks).flatten

/-! ## GUI entities (`inp_sections/gui.py`) -/

/-- `gui.Map` record. -/
structure Map where
  dimensions : List ℚ
  units : Chars := lit "NONE"
deriving DecidableEq, Repr

/-- `Map.make_inp` as a trace of `stream.write` chunks. -/
def mapMakeInp (m : Map) : List Chars :=
  [lit "[MAP]\n",
    lit "DIMENSIONS " ++ List.intercalate [' '] (m.dimensions.map (fmtF 2)) ++ ['\n'],
    lit "UNITS     " ++ m.units ++ ['\n']]

/-- A Python object supplied as `Coordinate.node` (the classes checked
by `gui.py` are the ones local to `catchment.py`; only `.name` is read
during rendering). -/
inductive GuiNode where
  | junction (j : Junction)
  | outfall (o : Outfall)
deriving DecidableEq, Repr

/-- The `.name` attribute of a coordinate's node. -/
def GuiNode.name : GuiNode → Chars
  | .junction j => j.name
  | .outfall o => o.name

/-- `gui.Coordinate` in its constructed form (`xcoord`/`ycoord` are the
attributes derived from the coordinate pair by `__post_init__`). -/
structure Coordinate where
  node : GuiNode
  xcoord : ℚ
  ycoord : ℚ
deriving DecidableEq, Repr

/-- `Coordinate.as_inp`. -/
def Coordinate.asInp (c : Coordinate) : Chars :=
  pyLjust c.node.name 16 ++ ' ' :: pyLjust (fmtF 3 c.xcoord) 18 ++
    ' ' :: pyLjust (fmtF 3 c.ycoord) 18

/-- `Coordinate.make_inp` as a trace of `stream.write` chunks. -/
def coordinateMakeInp (coordinates : List Coordinate) : List Chars :=
  lit "[COORDINATES]\n;;Node           X-Coord            Y-Coord           \n;;-------------- ------------------ ------------------\n"
    :: coordinates.map (fun c => c.asInp ++ ['\n'])

/-- `gui.SymbolPoint` in its constructed form. -/
structure SymbolPoint where
  gage : Raingage
  xcoord : ℚ
  ycoord : ℚ
deriving DecidableEq, Repr

/-- `SymbolPoint.as_inp` (defined in the source but never invoked by
`SymbolPoint.make_inp`). -/
def SymbolPoint.asInp (p : SymbolPoint) : Chars :=
  pyLjust p.gage.name 16 ++ ' ' :: pyLjust (fmtF 3 p.xcoord) 18 ++
    ' ' :: pyLjust (fmtF 3 p.ycoord) 18

/-- `SymbolPoint.make_inp` as a trace of `stream.write` chunks: the
source writes the section header and comment block only — it contains
no loop over the collection, so no data lines are emitted. -/
def symbolPointMakeInp (_raingages_symbols : List SymbolPoint) : List Chars :=
  [lit "[SYMBOLS]\n;;Rain Gage      X-Coord            Y-Coord           \n;;-------------- ------------------ ------------------\n"]

/-- `gui.LinkVertex` in its constructed form (the checked `link` class
is `link.Conduit`; only `.name` is read during rendering, so the link
is kept through its `Link` view). -/
structure LinkVertex where
  link : Link
  xcoord : ℚ
  ycoord : ℚ
deriving DecidableEq, Repr

/-- `LinkVertex.as_inp`. -/
def LinkVertex.asInp (v : LinkVertex) : Chars :=
  pyLjust v.link.name 16 ++ ' ' :: pyLjust (fmtF 3 v.xcoord) 18 ++
    ' ' :: pyLjust (fmtF 3 v.ycoord) 18

/-- `LinkVertex.make_inp` as a trace of `stream.write` chunks. -/
def linkVertexMakeInp (vertices : List LinkVertex) : List Chars :=
  lit "[VERTICES]\n;;Link           X-Coord            Y-Coord           \n;;-------------- ------------------ ------------------\n"
    :: vertices.map (fun v => v.asInp ++ ['\n'])

/-- `gui.PolygonVertex` in its constructed form. -/
structure PolygonVertex where
  subcatchment : Subcatchment
  xcoord : ℚ
  ycoord : ℚ
deriving DecidableEq, Repr

/-- `PolygonVertex.as_inp`. -/
def PolygonVertex.asInp (v : PolygonVertex) : Chars :=
  pyLjust v.subcatchment.name 16 ++ ' ' :: pyLjust (fmtF 3 v.xcoord) 18 ++
    ' ' :: pyLjust (fmtF 3 v.ycoord) 18

/-- `PolygonVertex.make_inp` as a trace of `stream.write` chunks. -/
def polygonVertexMakeInp (vertices : List PolygonVertex) : List Chars :=
  lit "[POLYGONS]\n;;Subcatchment   X-Coord            Y-Coord           \n;;-------------- ------------------ ------------------\n"
    :: vertices.map (fun v => v.asInp ++ ['\n'])

/-! ## Run-level records (`inp_sections/header.py`) -/

/-- `header.Title` record. -/
structure Title where
  header : Chars := lit "Project Title"
  description : Chars := lit "Project Description"
deriving DecidableEq, Repr

/-- `Title.make_inp` as a trace of `stream.write` chunks (note: the
description is written with no trailing newline). -/
def titleMakeInp (t : Title) : List Chars :=
  [lit "[TITLE]\n;;Project Title/Notes\n", t.header ++ ['\n'], t.description]

/-- `header.Options` record.  Options valued by strings, dates or
timedeltas are carried as their rendered strings; options whose annotated type is
`float` but whose default literal is the `int` `0` are carried as
`PyNum` so that `str(value)` prints them the way CPython does. -/
structure Options where
  flow_units : Chars := lit "CFS"
  infiltration : Chars := lit "HORTON"
  flow_routing : Chars := lit "DYNWAVE"
  link_offsets : Chars := lit "DEPTH"
  force_main_equation : Chars := lit "H-W"
  ignore_rainfall : Chars := lit "NO"
  ignore_snowmelt : Chars := lit "NO"
  ignore_groundwater : Chars := lit "NO"
  ignore_rdii : Chars := lit "NO"
  ignore_routing : Chars := lit "NO"
  ignore_quality : Chars := lit "NO"
  allow_ponding : Chars := lit "NO"
  skip_steady_state : Chars := lit "NO"
  sys_flow_tol : Int := 5
  lat_flow_tol : Int := 5
  start_date : Chars := lit "1/1/2004"
  start_time : Chars := lit "0:00:00"
  end_date : Chars := lit "1/1/2004"
  end_time : Chars := lit "23:59:59"
  report_start_date : Chars := lit "1/1/2004"
  report_start_time : Chars := lit "0:00:00"
  sweep_start : Chars := lit "1/1"
  sweep_end : Chars := lit "12/31"
  dry_days : Int := 0
  report_step : Chars := lit "0:15:00"
  wet_step : Chars := lit "0:05:00"
  dry_step : Chars := lit "1:00:00"
  routing_step : PyNum := .float 20
  lengthening_step : PyNum := .float 0
  variable_step : PyNum := .float 0
  minimum_step : PyNum := .float (Rat.divInt 1 2)
  inertial_damping : Chars := lit "PARTIAL"
  normal_flow_limited : Chars := lit "BOTH"
  surcharge_method : Chars := lit "EXTRAN"
  min_surfarea : PyNum := .int 0
  min_slope : PyNum := .int 0
  max_trials : Int := 8
  head_tolerance : PyNum := .float (Rat.divInt 1 200)
  threads : Int := 8
deriving DecidableEq, Repr

/-- `Options.make_inp` as a trace of `stream.write` chunks: the header
write followed by one `f"{key.upper(): <20} {value}\n"` write per field
in declaration (= `__dict__`) order. -/
def optionsMakeInp (o : Options) : List Chars :=
  let fld (key : String) (v : Chars) : Chars :=
    pyLjust (lit key) 20 ++ ' ' :: v ++ ['\n']
  lit "[OPTIONS]\n;;Option             Value\n" ::
    [fld "FLOW_UNITS" o.flow_units,
      fld "INFILTRATION" o.infiltration,
      fld "FLOW_ROUTING" o.flow_routing,
      fld "LINK_OFFSETS" o.link_offsets,
      fld "FORCE_MAIN_EQUATION" o.force_main_equation,
      fld "IGNORE_RAINFALL" o.ignore_rainfall,
      fld "IGNORE_SNOWMELT" o.ignore_snowmelt,
      fld "IGNORE_GROUNDWATER" o.ignore_groundwater,
      fld "IGNORE_RDII" o.ignore_rdii,
      fld "IGNORE_ROUTING" o.ignore_routing,
      fld "IGNORE_QUALITY" o.ignore_quality,
      fld "ALLOW_PONDING" o.allow_ponding,
      fld "SKIP_STEADY_STATE" o.skip_steady_state,
      fld "SYS_FLOW_TOL" (intChars o.sys_flow_tol),
      fld "LAT_FLOW_TOL" (intChars o.lat_flow_tol),
      fld "START_DATE" o.start_date,
      fld "START_TIME" o.start_time,
      fld "END_DATE" o.end_date,
      fld "END_TIME" o.end_time,
      fld "REPORT_START_DATE" o.report_start_date,
      fld "REPORT_START_TIME" o.report_start_time,
      fld "SWEEP_START" o.sweep_start,
      fld "SWEEP_END" o.sweep_end,
      fld "DRY_DAYS" (intChars o.dry_days),
      fld "REPORT_STEP" o.report_step,
      fld "WET_STEP" o.wet_step,
      fld "DRY_STEP" o.dry_step,
      fld "ROUTING_STEP" o.routing_step.str,
      fld "LENGTHENING_STEP" o.lengthening_step.str,
      fld "VARIABLE_STEP" o.variable_step.str,
      fld "MINIMUM_STEP" o.minimum_step.str,
      fld "INERTIAL_DAMPING" o.inertial_damping,
      fld "NORMAL_FLOW_LIMITED" o.normal_flow_limited,
      fld "SURCHARGE_METHOD" o.surcharge_method,
      fld "MIN_SURFAREA" o.min_surfarea.str,
      fld "MIN_SLOPE" o.min_slope.str,
      fld "MAX_TRIALS" (intChars o.max_trials),
      fld "HEAD_TOLERANCE" o.head_tolerance.str,
      fld "THREADS" (intChars o.threads)]

/-- `header.Report` record.  List-valued selections (`subcatchments`,
`nodes`, `links`) are carried as their rendered strings; `None` prints
as `"None"`. -/
structure Report where
  disabled : Chars := lit "NO"
  input : Chars := lit "NO"
  continuity : Chars := lit "YES"
  flowstats : Chars := lit "YES"
  controls : Chars := lit "NO"
  subcatchments : Chars := lit "NONE"
  nodes : Option Chars := none
  links : Option Chars := none
  lid : Chars := []
deriving DecidableEq, Repr

/-- `Report.make_inp` as a trace of `stream.write` chunks: the section
name followed by one `f"{key.upper(): <21} {value}\n"` write per field
in declaration (= `__dict__`) order. -/
def reportMakeInp (r : Report) : List Chars :=
  let fld (key : String) (v : Chars) : Chars :=
    pyLjust (lit key) 21 ++ ' ' :: v ++ ['\n']
  lit "[REPORT]\n" ::
    [fld "DISABLED" r.disabled,
      fld "INPUT" r.input,
      fld "CONTINUITY" r.continuity,
      fld "FLOWSTATS" r.flowstats,
      fld "CONTROLS" r.controls,
      fld "SUBCATCHMENTS" r.subcatchments,
      fld "NODES" (match r.nodes with | some s => s | none => lit "None"),
      fld "LINKS" (match r.links with | some s => s | none => lit "None"),
      fld "LID" r.lid]

/-! ## Document assembler (`swmming/__init__.py`) -/

/-- The arguments of `assemble_inp` (title and options have constructed
defaults; every other section argument is optional). -/
structure AssembleArgs where
  title : Title := {}
  options : Options := {}
  raingages : Option (List Raingage) := none
  subcatchments : Option (List Subcatchment) := none
  subareas : Option (List Subarea) := none
  infiltration : Option (List Infiltration) := none
  junctions : Option (List Junction) := none
  outfalls : Option (List Outfall) := none
  conduits : Option (List Conduit) := none
  xsections : Option (List XSection) := none
  transects : Option (List ValidatedTransect) := none
  streets : Option (List Street) := none
  inlets : Option (List Inlet) := none
  inlet_usages : Option (List InletUsage) := none
  timeseries : Option (List Timeseries) := none
  report : Option Report := none
  coordinates : Option (List Coordinate) := none
  vertices : Option (List LinkVertex) := none
  polygons : Option (List PolygonVertex) := none
  map : Option Map := none
deriving Repr

/-- Python truthiness of an optional collection (`None` and the empty
collection are falsy). -/
def listTruthy : Option (List α) → Bool
  | none => false
  | some l => !l.isEmpty

/-- One `if collection: Section.make_inp(...); add_empty_line()` block
of `assemble_inp`. -/
def optSection (o : Option (List α)) (f : List α → List Chars) : List Chars :=
  match o with
  | some l => if l.isEmpty then [] else f l ++ [lit "\n\n"]
  | none => []

/-- One `if obj: Obj.make_inp(...); add_empty_line()` block of
`assemble_inp` for the single-object `map`/`report` arguments (dataclass
instances are always truthy). -/
def optSingle (o : Option β) (f : β → List Chars) : List Chars :=
  match o with
  | some x => f x ++ [lit "\n\n"]
  | none => []

/-- `assemble_inp` as a trace of `stream.write` chunks: title and
options unconditionally, then each optional section in the source's
fixed order, each emitted section followed by one `"\n\n"` write. -/
def assembleChunks (a : AssembleArgs) : List Chars :=
  titleMakeInp a.title ++ [lit "\n\n"] ++
    optionsMakeInp a.options ++ [lit "\n\n"] ++
    optSection a.raingages raingageMakeInp ++
    optSection a.subcatchments subcatchmentMakeInp ++
    optSection a.subareas subareaMakeInp ++
    optSection a.infiltration infiltrationMakeInp ++
    optSection a.junctions junctionMakeInp ++
    optSection a.outfalls outfallMakeInp ++
    optSection a.conduits conduitMakeInp ++
    optSection a.xsections xsectionMakeInp ++
    optSection a.transects transectMakeInp ++
    optSection a.timeseries timeseriesMakeInp ++
    optSection a.streets streetMakeInp ++
    optSection a.inlets inletMakeInp ++
    optSection a.inlet_usages inletUsageMakeInp ++
    optSingle a.map mapMakeInp ++
    optSection a.coordinates coordinateMakeInp ++
    optSection a.vertices linkVertexMakeInp ++
    optSection a.polygons polygonVertexMakeInp ++
    optSingle a.report reportMakeInp

end Swmming

namespace Swmming

-- sanity checks on the formatting model (mirroring values from the
-- repository's test suite)
example : fmtF 3 (150 : ℚ) = lit "150.000" := by decide
example : pyLjust (lit "j1") 16 = lit "j1              " := by rfl
example : fmtF 2 (Rat.divInt 3 20) = lit "0.15" := by decide
example : fmtF 4 (Rat.divInt 3 20) = lit "0.1500" := by decide
example : pyFloatRepr (150 : ℚ) = lit "150.0" := by decide
example : PyNum.str (.int 0) = lit "0" := by rfl
example : PyNum.str (.float 0) = lit "0.0" := by decide
example : batched 5 (List.range 11) = [[0,1,2,3,4],[5,6,7,8,9],[10]] := by rfl
example : strContains (lit "HORTON") (lit "MODIFIED_HORTON") = true := by rfl
example : fmtF 2 (Rat.divInt (-1) 1000) = lit "0.00" := by decide

-- renderer outputs pinned against the repository's own test expectations
-- (`tests/test_subcatch.py`, `tests/test_transects.py`)
example :
    Subcatchment.asInp
      { name := lit "s1"
        rain_gage := .raingage
          { name := lit "rg1"
            form := lit "INTENSITY"
            interval := .s (lit "1:00")
            tseries := some { name := lit "timeseries1"
                              time_ts := [0, 1, 2, 3]
                              value_ts := [0, Rat.divInt 1 2, 1, Rat.divInt 3 20] }
            mode := lit "TIMESERIES" }
        outlet := .catchJunction { name := lit "j1", elevation := 150 }
        area := 100
        percent_imperv := 100
        width := 100
        slope := Rat.divInt 3 20 } =
    lit "s1               rg1              j1               100.00   100.00   100.00   0.1500   0.00                     " := by
  decide

example :
    Raingage.asInp
      { name := lit "rg1"
        form := lit "INTENSITY"
        interval := .s (lit "1:00")
        tseries := some { name := lit "timeseries1", time_ts := [], value_ts := [] }
        mode := lit "TIMESERIES" } =
    lit "rg1              INTENSITY 1:00      1.00   TIMESERIES timeseries1 " := by
  decide

example :
    Infiltration.asInp
      { subcatchment :=
          { name := lit "s2", rain_gage := .notRaingage [], outlet := .subcatchment [],
            area := 200, percent_imperv := 25, width := 123, slope := Rat.divInt 9 10 }
        parameters := [10, 20, 30], method := lit "MODIFIED_GREEN_AMPT" } =
    lit "s2               10.00      20.00      30.00                            MODIFIED_GREEN_AMPT" := by
  decide

example :
    XSection.asInp
      { link := { name := lit "c1", from_node := ⟨lit "j1", 5⟩, to_node := ⟨lit "j2", 0⟩ }
        shape := .irregular
        tsect := some { name := lit "transect1"
                        station := []
                        elevation := []
                        nleft := 0
                        nright := 0
                        nchannel := 0
                        xleft := 0
                        xright := 0 } } =
    lit "c1               IRREGULAR    transect1       " := by
  decide

example :
    transectBodyChunk
      { t := { name := lit "transect1"
               station := [0, 1, 2, 3, 4, 5, 6, 7, 8, 9, 10]
               elevation := [10, 9, 8, 7, 6, 5, 6, 7, 8, 9, 10]
               nleft := Rat.divInt 1 50, nright := Rat.divInt 1 50,
               nchannel := Rat.divInt 1 100, xleft := 1, xright := 3,
               station_modifier := Rat.divInt 4 5, elev_offset := .float 0 }
        n_stations := 11 } =
    lit ";\nNC 0.0200      0.0200     0.0100    \nX1 transect1         11       1.00     3.00     0.0      0.0      0.00     0.80     0.0     \n" := by
  decide

example :
    Coordinate.asInp
      { node := .junction { name := lit "j1", elevation := 150 },
        xcoord := 5, ycoord := 15 } =
    lit "j1               5.000              15.000            " := by
  decide

example :
    pyWrap (lit "A loong description A loong description A loong description A loong description A loong description ") 48 =
    [lit "A loong description A loong description A loong",
      lit "description A loong description A loong",
      lit "description"] := by
  decide

/-! ## Claim C1 — `Outfall.stage_data` kind matches the tag -/

/-- The §4.3 table: the `stage_data` kind required by each
`type_of_outfall` tag (`FREE`/`NORMAL` ⇒ empty, `FIXED` ⇒ float,
`TIDAL` ⇒ `Curve`, `TIMESERIES` ⇒ `Timeseries`). -/
def stageDataMatchesTag (tag : Chars) (sd : StageData) : Bool :=
  if tag = lit "FIXED" then sd.isFloat
  else if tag = lit "TIDAL" then sd.isCurve
  else if tag = lit "TIMESERIES" then sd.isTimeseries
  else sd = StageData.none

/-- C1.  For every `Outfall` construction whose tag is one of the five
outfall types and whose `gated` flag is valid, construction succeeds
exactly when the dynamic kind of `stage_data` matches the tag per the
§4.3 table (`FREE`/`NORMAL` ⇒ `None`, `FIXED` ⇒ plain float, `TIDAL` ⇒
`Curve`, `TIMESERIES` ⇒ `Timeseries`): any mismatched kind fails with
an error, a matching kind succeeds. -/
theorem outfall_stage_data_discipline (o : Outfall)
    (htag : o.type_of_outfall ∈ outfallTypeTags)
    (hg : o.gated = lit "NO" ∨ o.gated = lit "YES") :
    (outfallPostInit o).isOk = stageDataMatchesTag o.type_of_outfall o.stage_data := by
  obtain ⟨nm, el, tag, sd, g, rt⟩ := o
  simp only [outfallTypeTags, List.mem_cons, List.not_mem_nil, or_false] at htag
  rcases htag with h|h|h|h|h <;> subst h <;>
    rcases hg with h|h <;> subst h <;>
    cases sd <;> rfl

/-- C1 witness: a `FIXED` outfall carrying a plain float constructs
successfully. -/
theorem outfall_stage_data_discipline_witness :
    (outfallPostInit
      { name := lit "out2", elevation := 8, type_of_outfall := lit "FIXED",
        stage_data := .float (Rat.divInt 5 2), gated := lit "NO" }).isOk = true := by
  rw [outfall_stage_data_discipline _ (by decide) (by decide)]
  decide

/-! ## Claim C6 — `Infiltration` parameter counts per method -/

/-- The parameter count required per method family: 5 for the Horton
family, 3 for Green-Ampt and Curve-Number families. -/
def expectedParamCount (m : Chars) : Nat :=
  if m = lit "HORTON" ∨ m = lit "MODIFIED_HORTON" then 5 else 3

/-- C6.  For every `Infiltration` construction with a recognised
method, construction succeeds exactly when the parameter-list length
matches the method family — 5 for `HORTON`/`MODIFIED_HORTON`, 3 for
`GREEN_AMPT`/`MODIFIED_GREEN_AMPT`/`CURVE_NUMBER`; any other length
(in particular the off-by-one lengths) fails. -/
theorem infiltration_param_count (i : Infiltration)
    (h : i.method ∈ infiltrationMethodTags) :
    (infiltrationPostInit i).isOk = true ↔
      i.parameters.length = expectedParamCount i.method := by
  obtain ⟨sc, ps, m⟩ := i
  simp only [infiltrationMethodTags, List.mem_cons, List.not_mem_nil, or_false] at h
  rcases h with h|h|h|h|h <;> subst h <;>
    simp +decide [infiltrationPostInit, expectedParamCount] <;>
    split <;> simp_all [Except.isOk, Except.toBool]

/-- C6 witness: `MODIFIED_HORTON` with 5 parameters succeeds (and, per
the theorem, with 4 or 6 it would fail). -/
theorem infiltration_param_count_witness :
    (infiltrationPostInit
      { subcatchment :=
          { name := lit "s1", rain_gage := .notRaingage [],
            outlet := .catchJunction { name := lit "j1", elevation := 150 },
            area := 100, percent_imperv := 100, width := 100, slope := 1 }
        parameters := [1, 2, 3, 4, 5]
        method := lit "MODIFIED_HORTON" }).isOk = true := by
  rw [infiltration_param_count _ (by decide)]
  decide

/-! ## Claim C7 — `Weir` ROADWAY overrides and requirements -/

/-- C7.  For every `Weir` construction: (a) with `weir_type = ROADWAY`,
any successfully constructed instance has `flap_gate = NO`,
`end_contractions = 0`, `cd2 = 0` and `surcharge = NO` regardless of the
caller-supplied values, and carries a supplied (truthy) `road_width` and
a `road_surface ∈ {PAVED, GRAVEL}` — so construction fails unless both
were supplied with a valid surface, and indeed fails whenever either is
missing; (b) with any other recognised weir type, construction succeeds
and every field keeps its caller-supplied value except that `cd2`
defaults to `cd` when not given. -/
theorem weir_roadway_override (w : Weir) :
    (w.weir_type = lit "ROADWAY" →
      (∀ w', weirPostInit w = .ok w' →
          w'.flap_gate = lit "NO" ∧ w'.end_contractions = 0 ∧
          w'.cd2 = some 0 ∧ w'.surcharge = lit "NO" ∧
          optRatTruthy w'.road_width = true ∧
          (w'.road_surface = some (lit "PAVED") ∨
            w'.road_surface = some (lit "GRAVEL"))) ∧
        (optRatTruthy w.road_width = false ∨ optStrTruthy w.road_surface = false →
          (weirPostInit w).isOk = false)) ∧
    (w.weir_type ∈ [lit "TRANSVERSE", lit "SIDEFLOW", lit "V-NOTCH",
        lit "TRAPEZOIDAL"] →
      weirPostInit w = .ok { w with cd2 := some (w.cd2.getD w.cd) }) := by
  obtain ⟨nm, fn, tn, wt, ch, cd, fg, ec, cd2, sur, rwid, rsurf⟩ := w
  constructor
  · intro hR
    subst hR
    constructor
    · intro w' hok
      cases cd2 <;>
        · simp +decide [weirPostInit] at hok
          split at hok <;> simp_all
          split at hok <;> simp_all
          obtain ⟨hrw, hrs⟩ := ‹_ ∧ _›
          subst hok
          simp_all
          tauto
    · intro hfail
      cases cd2 <;> rcases hfail with h | h <;>
        simp_all +decide [weirPostInit, Except.isOk, Except.toBool]
  · intro hmem
    simp only [List.mem_cons, List.not_mem_nil, or_false] at hmem
    cases cd2 <;> rcases hmem with h|h|h|h <;> subst h <;>
      simp +decide [weirPostInit, Option.getD]

/-- C7 witness: a valid `ROADWAY` weir (with forced fields) and a
`TRANSVERSE` weir keeping its caller values both construct. -/
theorem weir_roadway_override_witness :
    (weirPostInit
      { name := lit "w1", from_node := ⟨lit "j1", 5⟩, to_node := ⟨lit "j2", 0⟩,
        weir_type := lit "ROADWAY", crest_height := 1, cd := 3,
        flap_gate := lit "YES", end_contractions := 2, cd2 := some 4,
        surcharge := lit "YES", road_width := some 12,
        road_surface := some (lit "PAVED") }).isOk = false ∨
    (∀ w', weirPostInit
      { name := lit "w1", from_node := ⟨lit "j1", 5⟩, to_node := ⟨lit "j2", 0⟩,
        weir_type := lit "ROADWAY", crest_height := 1, cd := 3,
        flap_gate := lit "YES", end_contractions := 2, cd2 := some 4,
        surcharge := lit "YES", road_width := some 12,
        road_surface := some (lit "PAVED") } = .ok w' →
      w'.flap_gate = lit "NO" ∧ w'.end_contractions = 0 ∧
      w'.cd2 = some 0 ∧ w'.surcharge = lit "NO" ∧
      optRatTruthy w'.road_width = true ∧
      (w'.road_surface = some (lit "PAVED") ∨
        w'.road_surface = some (lit "GRAVEL"))) :=
  Or.inr ((weir_roadway_override _).1 (by decide)).1

/-! ## Claim C8 — `Transect` structural checks -/

/-- C8.  A `Transect` construction succeeds exactly when the station
and elevation sequences have equal length and both `xleft` and `xright`
equal some element of the station sequence; on success the derived
station count equals the common length. -/
theorem transect_structural_checks (t : Transect) :
    ((transectPostInit t).isOk = true ↔
      (t.elevation.length = t.station.length ∧
        t.xleft ∈ t.station ∧ t.xright ∈ t.station)) ∧
    (∀ v, transectPostInit t = .ok v → v.2 = t.elevation.length) := by
  constructor
  · unfold transectPostInit
    split_ifs <;> simp_all [Except.isOk, Except.toBool]
  · intro v hv
    unfold transectPostInit at hv
    split_ifs at hv
    simp_all
    exact hv ▸ rfl

/-- C8 witness: a transect with matching lengths and bank stations
drawn from the station list constructs; its station count is 2. -/
theorem transect_structural_checks_witness :
    (transectPostInit
      { name := lit "tr0", station := [0, 1], elevation := [5, 6],
        nleft := 0, nright := 0, nchannel := 0,
        xleft := 0, xright := 1 }).isOk = true :=
  (transect_structural_checks _).1.mpr (by decide)

/-! ## Claim C9 — `Subcatchment.outlet` acceptance

`Subcatchment.__post_init__` (`catchment.py`) accepts an outlet only
when it is an instance of the `Junction` class defined locally in
`catchment.py`; an `Outfall`, another `Subcatchment` — and even the
exported `nodes.Junction` that the package's own test suite passes —
are all rejected, contradicting the spec and the class's docstring
("Name of the node or subcatchment receiving runoff"). -/

/-- C9.  Evaluating the embedded `Subcatchment` construction at the
claim's own examples: an `Outfall` outlet, a distinct `Subcatchment`
outlet, and a `nodes.Junction` outlet (the one the repository's tests
use) each fail with `"Outlet must be a Junction object"`, even though
the rain gage is a valid `Raingage` and no snow pack is supplied; only
an instance of the `catchment.py`-local `Junction` class passes. -/
theorem subcatchment_outlet_rejects_node_kinds :
    (subcatchmentPostInit
      { name := lit "s1"
        rain_gage := .raingage
          { name := lit "rg1"
            form := lit "INTENSITY"
            interval := .s (lit "1:00")
            tseries := some { name := lit "timeseries1", time_ts := [0], value_ts := [0] }
            mode := lit "TIMESERIES" }
        outlet := .outfall
          { name := lit "out1", elevation := -1, type_of_outfall := lit "FREE" }
        area := 100
        percent_imperv := 100
        width := 100
        slope := Rat.divInt 3 20 } =
      .error "Outlet must be a Junction object") ∧
    (subcatchmentPostInit
      { name := lit "s1"
        rain_gage := .raingage
          { name := lit "rg1"
            form := lit "INTENSITY"
            interval := .s (lit "1:00")
            tseries := some { name := lit "timeseries1", time_ts := [0], value_ts := [0] }
            mode := lit "TIMESERIES" }
        outlet := .subcatchment (lit "s2")
        area := 100
        percent_imperv := 100
        width := 100
        slope := Rat.divInt 3 20 } =
      .error "Outlet must be a Junction object") ∧
    (subcatchmentPostInit
      { name := lit "s1"
        rain_gage := .raingage
          { name := lit "rg1"
            form := lit "INTENSITY"
            interval := .s (lit "1:00")
            tseries := some { name := lit "timeseries1", time_ts := [0], value_ts := [0] }
            mode := lit "TIMESERIES" }
        outlet := .nodesJunction { name := lit "j1", elevation := 150 }
        area := 100
        percent_imperv := 100
        width := 100
        slope := Rat.divInt 3 20 } =
      .error "Outlet must be a Junction object") ∧
    (subcatchmentPostInit
      { name := lit "s1"
        rain_gage := .raingage
          { name := lit "rg1"
            form := lit "INTENSITY"
            interval := .s (lit "1:00")
            tseries := some { name := lit "timeseries1", time_ts := [0], value_ts := [0] }
            mode := lit "TIMESERIES" }
        outlet := .catchJunction { name := lit "j1", elevation := 150 }
        area := 100
        percent_imperv := 100
        width := 100
        slope := Rat.divInt 3 20 }).isOk = true := by
  refine ⟨rfl, rfl, rfl, rfl⟩

/-! ## Claim C10 — unconditional failure of unsupported entity kinds -/

/-- C10 counterexample.  The claim states that divider-node
construction fails unconditionally, but the exported `nodes.Divider` is
a plain dataclass with no `__post_init__`: constructing one succeeds.
-/
theorem divider_construction_succeeds :
    (dividerInit (lit "d1") 3
      ⟨lit "c1", ⟨lit "j1", 5⟩, ⟨lit "j2", 0⟩⟩ (lit "OVERFLOW")).isOk = true := by
  rfl

/-- C10 amended.  Snow packs, curves, patterns and storage nodes fail
unconditionally at construction, but divider nodes (the exported
`nodes.Divider` dataclass) construct successfully for all argument
values. -/
theorem unsupported_kinds_fail_except_divider :
    curveInit.isOk = false ∧ patternInit.isOk = false ∧
    storageInit.isOk = false ∧ snowpackInit.isOk = false ∧
    ∀ name elevation divided_link divider_type qmin dcurve ht Cd
      max_depth init_depth sur_depth aponded,
      (dividerInit name elevation divided_link divider_type qmin dcurve ht Cd
        max_depth init_depth sur_depth aponded).isOk = true := by
  refine ⟨rfl, rfl, rfl, rfl, ?_⟩
  intros
  rfl

/-! ## Claim C4 — single-line section serializer contract

Every single-line serializer in the package writes the bracketed
section line, the two comment lines, and one formatted line per entity
— except `SymbolPoint.make_inp` (`gui.py` lines 114–120), which writes
the header block and then returns without looping over the collection,
although its `as_inp` renderer exists (as dead code).  The spec's §4.4
contract is explicit, so this is a slip in the code. -/

/-- C4.  Evaluating the embedded serializers at a concrete failing
input: the rain-gage symbol-point serializer emits only its header
chunk and no data line for the entity passed in, while the sibling
junction serializer emits its header chunk plus one data line per
entity as the contract requires. -/
theorem symbolPoint_serializer_drops_entities :
    symbolPointMakeInp
      [{ gage := { name := lit "rg1", form := lit "INTENSITY",
                   interval := .s (lit "1:00"), mode := lit "TIMESERIES" },
         xcoord := 5, ycoord := 15 }] =
      [lit "[SYMBOLS]\n;;Rain Gage      X-Coord            Y-Coord           \n;;-------------- ------------------ ------------------\n"] ∧
    (junctionMakeInp [{ name := lit "j1", elevation := 150 }]).length = 2 := by
  exact ⟨rfl, rfl⟩

/-! ## Claim C3 — fixed-column rendering width -/

/-- Length of a left-justified field. -/
theorem length_pyLjust (s : Chars) (w : Nat) :
    (pyLjust s w).length = max w s.length := by
  simp [pyLjust, spaces]
  omega

/-- Slicing one `field ++ ' ' :: rest` step of a rendered line. -/
theorem append_cons_slice (a b : Chars) (c : Char) (n : Nat)
    (h : a.length = n) :
    (a ++ c :: b).take n = a ∧ (a ++ c :: b).drop (n + 1) = b := by
  subst h
  constructor
  · exact List.take_left a (c :: b)
  · have he : a ++ c :: b = (a ++ [c]) ++ b := by simp
    have hl : (a ++ [c]).length = a.length + 1 := by simp
    rw [he, ← hl]
    exact List.drop_left _ _

/-- C3 counterexample.  A valid `FREE` outfall with no `route_to` (the
spec's own §8 example `out1`) renders to 65 characters, not the 81
characters declared by the section's underline comment: the trailing
route-to field is rendered empty rather than blank-padded, so the line
width depends on which optional fields are present. -/
theorem outfall_render_width_counterexample :
    (outfallPostInit
      { name := lit "out1", elevation := 8, type_of_outfall := lit "FREE",
        stage_data := .none, gated := lit "NO", route_to := none }).isOk = true ∧
    (lit ";;-------------- ---------- ---------- ---------------- -------- ----------------").length = 81 ∧
    (Outfall.asInp
      { name := lit "out1", elevation := 8, type_of_outfall := lit "FREE",
        stage_data := .none, gated := lit "NO", route_to := none }).length = 65 := by
  refine ⟨rfl, rfl, ?_⟩
  decide

/-- C3 amended.  Fixed-column rendering holds once every rendered field
content fits its declared column width and (for `Outfall`) the optional
`route_to` reference is present: a `Junction` line is exactly 72
characters with each field in its declared column range, and an
`Outfall` line is exactly 81 characters with each field in its declared
column range.  (Without `route_to`, an outfall line is 65 characters —
see the counterexample.) -/
theorem fixed_column_render_width (j : Junction) (o : Outfall) (r : Area)
    (hjn : j.name.length ≤ 16)
    (hje : (fmtF 3 j.elevation).length ≤ 10)
    (hjm : (fmtF 2 j.max_depth).length ≤ 10)
    (hji : (fmtF 2 j.init_depth).length ≤ 10)
    (hjs : (fmtF 2 j.sur_depth).length ≤ 10)
    (hja : j.aponded.str.length ≤ 11)
    (hon : o.name.length ≤ 16)
    (hoe : (fmtF 3 o.elevation).length ≤ 10)
    (hot : o.type_of_outfall.length ≤ 10)
    (hos : o.stageField.length = 16)
    (hog : o.gated.length ≤ 8)
    (hor : o.route_to = some r)
    (horn : r.name.length ≤ 16) :
    (j.asInp.length = 72 ∧
      j.asInp.take 16 = pyLjust j.name 16 ∧
      (j.asInp.drop 17).take 10 = pyLjust (fmtF 3 j.elevation) 10 ∧
      (j.asInp.drop 28).take 10 = pyLjust (fmtF 2 j.max_depth) 10 ∧
      (j.asInp.drop 39).take 10 = pyLjust (fmtF 2 j.init_depth) 10 ∧
      (j.asInp.drop 50).take 10 = pyLjust (fmtF 2 j.sur_depth) 10 ∧
      j.asInp.drop 61 = pyLjust j.aponded.str 11) ∧
    (o.asInp.length = 81 ∧
      o.asInp.take 16 = pyLjust o.name 16 ∧
      (o.asInp.drop 17).take 10 = pyLjust (fmtF 3 o.elevation) 10 ∧
      (o.asInp.drop 28).take 10 = pyLjust o.type_of_outfall 10 ∧
      (o.asInp.drop 39).take 16 = o.stageField ∧
      (o.asInp.drop 56).take 8 = pyLjust o.gated 8 ∧
      o.asInp.drop 65 = pyLjust r.name 16) := by
  have lj : ∀ (s : Chars) (w : Nat), s.length ≤ w → (pyLjust s w).length = w := by
    intro s w h
    rw [length_pyLjust]
    omega
  have hroutelen : o.routeField.length = 16 := by
    rw [Outfall.routeField, hor]
    exact lj _ _ horn
  have hroute : o.routeField = pyLjust r.name 16 := by
    rw [Outfall.routeField, hor]
  constructor
  · have l1 := lj _ _ hjn
    have l2 := lj _ _ hje
    have l3 := lj _ _ hjm
    have l4 := lj _ _ hji
    have l5 := lj _ _ hjs
    have l6 := lj _ _ hja
    have d17 : j.asInp.drop 17 =
        pyLjust (fmtF 3 j.elevation) 10 ++ ' ' ::
          (pyLjust (fmtF 2 j.max_depth) 10 ++ ' ' ::
            (pyLjust (fmtF 2 j.init_depth) 10 ++ ' ' ::
              (pyLjust (fmtF 2 j.sur_depth) 10 ++ ' ' ::
                pyLjust j.aponded.str 11))) := by
      rw [Junction.asInp]
      exact (append_cons_slice _ _ ' ' 16 l1).2
    have d28 : j.asInp.drop 28 =
        pyLjust (fmtF 2 j.max_depth) 10 ++ ' ' ::
          (pyLjust (fmtF 2 j.init_depth) 10 ++ ' ' ::
            (pyLjust (fmtF 2 j.sur_depth) 10 ++ ' ' ::
              pyLjust j.aponded.str 11)) := by
      rw [show (28 : Nat) = 17 + 11 from rfl, ← List.drop_drop, d17]
      exact (append_cons_slice _ _ ' ' 10 l2).2
    have d39 : j.asInp.drop 39 =
        pyLjust (fmtF 2 j.init_depth) 10 ++ ' ' ::
          (pyLjust (fmtF 2 j.sur_depth) 10 ++ ' ' ::
            pyLjust j.aponded.str 11) := by
      rw [show (39 : Nat) = 28 + 11 from rfl, ← List.drop_drop, d28]
      exact (append_cons_slice _ _ ' ' 10 l3).2
    have d50 : j.asInp.drop 50 =
        pyLjust (fmtF 2 j.sur_depth) 10 ++ ' ' ::
          pyLjust j.aponded.str 11 := by
      rw [show (50 : Nat) = 39 + 11 from rfl, ← List.drop_drop, d39]
      exact (append_cons_slice _ _ ' ' 10 l4).2
    have d61 : j.asInp.drop 61 = pyLjust j.aponded.str 11 := by
      rw [show (61 : Nat) = 50 + 11 from rfl, ← List.drop_drop, d50]
      exact (append_cons_slice _ _ ' ' 10 l5).2
    refine ⟨?_, ?_, ?_, ?_, ?_, ?_, d61⟩
    · rw [Junction.asInp]
      simp [l1, l2, l3, l4, l5, l6]
    · rw [Junction.asInp]
      exact (append_cons_slice _ _ ' ' 16 l1).1
    · rw [d17]
      exact (append_cons_slice _ _ ' ' 10 l2).1
    · rw [d28]
      exact (append_cons_slice _ _ ' ' 10 l3).1
    · rw [d39]
      exact (append_cons_slice _ _ ' ' 10 l4).1
    · rw [d50]
      exact (append_cons_slice _ _ ' ' 10 l5).1
  · have l1 := lj _ _ hon
    have l2 := lj _ _ hoe
    have l3 := lj _ _ hot
    have l5 := lj _ _ hog
    have d17 : o.asInp.drop 17 =
        pyLjust (fmtF 3 o.elevation) 10 ++ ' ' ::
          (pyLjust o.type_of_outfall 10 ++ ' ' ::
            (o.stageField ++ ' ' ::
              (pyLjust o.gated 8 ++ ' ' :: o.routeField))) := by
      rw [Outfall.asInp]
      exact (append_cons_slice _ _ ' ' 16 l1).2
    have d28 : o.asInp.drop 28 =
        pyLjust o.type_of_outfall 10 ++ ' ' ::
          (o.stageField ++ ' ' ::
            (pyLjust o.gated 8 ++ ' ' :: o.routeField)) := by
      rw [show (28 : Nat) = 17 + 11 from rfl, ← List.drop_drop, d17]
      exact (append_cons_slice _ _ ' ' 10 l2).2
    have d39 : o.asInp.drop 39 =
        o.stageField ++ ' ' ::
          (pyLjust o.gated 8 ++ ' ' :: o.routeField) := by
      rw [show (39 : Nat) = 28 + 11 from rfl, ← List.drop_drop, d28]
      exact (append_cons_slice _ _ ' ' 10 l3).2
    have d56 : o.asInp.drop 56 =
        pyLjust o.gated 8 ++ ' ' :: o.routeField := by
      rw [show (56 : Nat) = 39 + 17 from rfl, ← List.drop_drop, d39]
      exact (append_cons_slice _ _ ' ' 16 hos).2
    have d65 : o.asInp.drop 65 = o.routeField := by
      rw [show (65 : Nat) = 56 + 9 from rfl, ← List.drop_drop, d56]
      exact (append_cons_slice _ _ ' ' 8 l5).2
    refine ⟨?_, ?_, ?_, ?_, ?_, ?_, by rw [d65, hroute]⟩
    · rw [Outfall.asInp]
      simp [l1, l2, l3, l5, hos, hroutelen]
    · rw [Outfall.asInp]
      exact (append_cons_slice _ _ ' ' 16 l1).1
    · rw [d17]
      exact (append_cons_slice _ _ ' ' 10 l2).1
    · rw [d28]
      exact (append_cons_slice _ _ ' ' 10 l3).1
    · rw [d39]
      exact (append_cons_slice _ _ ' ' 16 hos).1
    · rw [d56]
      exact (append_cons_slice _ _ ' ' 8 l5).1

/-- C3 witness: the spec's §8 junction `j1` (elevation 10.0) renders to
exactly 72 characters, and a `FREE` outfall routed to a subcatchment
renders to exactly 81 characters. -/
theorem fixed_column_render_width_witness :
    (Junction.asInp { name := lit "j1", elevation := 10 }).length = 72 ∧
    (Outfall.asInp
      { name := lit "out1", elevation := 8, type_of_outfall := lit "FREE",
        stage_data := .none, gated := lit "NO",
        route_to := some ⟨lit "s1"⟩ }).length = 81 := by
  have h := fixed_column_render_width
    { name := lit "j1", elevation := 10 }
    { name := lit "out1", elevation := 8, type_of_outfall := lit "FREE",
      stage_data := .none, gated := lit "NO", route_to := some ⟨lit "s1"⟩ }
    ⟨lit "s1"⟩
    (by decide) (by decide) (by decide) (by decide) (by decide) (by decide)
    (by decide) (by decide) (by decide) (by decide) (by decide) (by decide)
    (by decide)
  exact ⟨h.1.1, h.2.1⟩

/-! ## Claim C5 — `Transect` GR-line batching -/

/-- `batchedAux` of the empty list is empty for any fuel. -/
theorem batchedAux_nil (fuel : Nat) : batchedAux 5 fuel ([] : List α) = [] := by
  cases fuel <;> rfl

/-- The number of 5-batches is `⌈n / 5⌉`. -/
theorem batchedAux_length :
    ∀ (fuel : Nat) (l : List α), l.length ≤ fuel →
      (batchedAux 5 fuel l).length = (l.length + 4) / 5 := by
  intro fuel
  induction fuel with
  | zero =>
    intro l hl
    rw [List.length_eq_zero.mp (Nat.le_zero.mp hl)]
    simp [batchedAux]
  | succ f ih =>
    intro l hl
    cases l with
    | nil => simp [batchedAux]
    | cons x xs =>
      simp only [List.length_cons] at hl
      simp only [batchedAux, List.length_cons]
      rw [ih (xs.drop 4) (by simp only [List.length_drop]; omega)]
      simp only [List.length_drop]
      omega

/-- Every 5-batch carries between 1 and 5 elements. -/
theorem batchedAux_mem_length :
    ∀ (fuel : Nat) (l : List α), l.length ≤ fuel →
      ∀ b ∈ batchedAux 5 fuel l, 1 ≤ b.length ∧ b.length ≤ 5 := by
  intro fuel
  induction fuel with
  | zero =>
    intro l hl b hb
    rw [List.length_eq_zero.mp (Nat.le_zero.mp hl)] at hb
    simp [batchedAux] at hb
  | succ f ih =>
    intro l hl b hb
    cases l with
    | nil => simp [batchedAux] at hb
    | cons x xs =>
      simp only [List.length_cons] at hl
      simp only [batchedAux, List.mem_cons] at hb
      rcases hb with rfl | hb
      · simp only [List.length_cons, List.length_take]
        omega
      · exact ih (xs.drop 4) (by simp only [List.length_drop]; omega) b hb

/-- The last 5-batch of a non-empty list carries `n % 5` elements (or 5
when 5 divides `n`). -/
theorem batchedAux_getLast :
    ∀ (fuel : Nat) (l : List α), l.length ≤ fuel → l ≠ [] →
      ∃ b, (batchedAux 5 fuel l).getLast? = some b ∧
        b.length = if l.length % 5 = 0 then 5 else l.length % 5 := by
  intro fuel
  induction fuel with
  | zero =>
    intro l hl hne
    exact absurd (List.length_eq_zero.mp (Nat.le_zero.mp hl)) hne
  | succ f ih =>
    intro l hl hne
    cases l with
    | nil => exact absurd rfl hne
    | cons x xs =>
      simp only [List.length_cons] at hl
      by_cases hxs : xs.length ≤ 4
      · have hdrop : xs.drop 4 = [] := List.drop_eq_nil_of_le hxs
        refine ⟨x :: xs.take 4, ?_, ?_⟩
        · show ((x :: xs.take 4) :: batchedAux 5 f (xs.drop 4)).getLast? = _
          rw [hdrop, batchedAux_nil]
          rfl
        · simp only [List.length_cons, List.length_take]
          split <;> omega
      · have hlen : (xs.drop 4).length = xs.length - 4 := List.length_drop 4 xs
        have hne2 : xs.drop 4 ≠ [] := by
          intro h
          rw [h] at hlen
          simp at hlen
          omega
        obtain ⟨b, hb, hblen⟩ := ih (xs.drop 4)
          (by simp only [List.length_drop]; omega) hne2
        refine ⟨b, ?_, ?_⟩
        · show ((x :: xs.take 4) :: batchedAux 5 f (xs.drop 4)).getLast? = _
          cases hrest : batchedAux 5 f (xs.drop 4) with
          | nil => rw [hrest] at hb; simp at hb
          | cons y ys =>
            rw [hrest] at hb
            rw [List.getLast?_cons_cons]
            exact hb
        · rw [hblen, hlen]
          simp only [List.length_cons]
          split <;> split <;> omega

/-- `getLast?` commutes with `map`. -/
theorem getLast?_map_eq (f : α → β) :
    ∀ l : List α, (l.map f).getLast? = (l.getLast?).map f := by
  intro l
  induction l with
  | nil => rfl
  | cons x xs ih =>
    cases xs with
    | nil => rfl
    | cons y ys =>
      simp only [List.map_cons, List.getLast?_cons_cons] at *
      exact ih

/-- Zipping the two batched arrays equals batching the zipped array and
splitting each batch into its two component lists. -/
theorem batchedAux_zip :
    ∀ (fuel : Nat) (e s : List ℚ), e.length = s.length →
      (batchedAux 5 fuel e).zip (batchedAux 5 fuel s) =
        (batchedAux 5 fuel (e.zip s)).map
          (fun b => (b.map Prod.fst, b.map Prod.snd)) := by
  intro fuel
  induction fuel with
  | zero =>
    intro e s _
    cases e <;> cases s <;> rfl
  | succ f ih =>
    intro e s h
    cases e with
    | nil =>
      rw [List.eq_nil_of_length_eq_zero h.symm]
      rfl
    | cons x xs =>
      cases s with
      | nil => simp at h
      | cons y ys =>
        have hxy : xs.length = ys.length := by simpa using h
        have htake : (xs.zip ys).take 4 = (xs.take 4).zip (ys.take 4) := by
          rw [List.zip_eq_zipWith, List.zip_eq_zipWith, List.take_zipWith]
        have hdrop4 : (xs.zip ys).drop 4 = (xs.drop 4).zip (ys.drop 4) := by
          rw [List.zip_eq_zipWith, List.zip_eq_zipWith, List.drop_zipWith]
        have e1 : batchedAux 5 (f + 1) (x :: xs) =
            (x :: xs.take 4) :: batchedAux 5 f (xs.drop 4) := rfl
        have e2 : batchedAux 5 (f + 1) (y :: ys) =
            (y :: ys.take 4) :: batchedAux 5 f (ys.drop 4) := rfl
        have e3 : batchedAux 5 (f + 1) ((x :: xs).zip (y :: ys)) =
            ((x, y) :: (xs.zip ys).take 4) ::
              batchedAux 5 f ((xs.zip ys).drop 4) := rfl
        rw [e1, e2, e3, List.zip_cons_cons, List.map_cons]
        refine congrArg₂ _ ?_ ?_
        · simp only [List.map_cons, htake]
          rw [List.map_fst_zip _ _ (by simp only [List.length_take]; omega),
            List.map_snd_zip _ _ (by simp only [List.length_take]; omega)]
        · rw [hdrop4]
          exact ih (xs.drop 4) (ys.drop 4)
            (by simp only [List.length_drop]; omega)

/-- A GR pair-write is never the bare `"GR "` marker (it is at least 18
characters long). -/
theorem grPairChunk_ne_marker (p : ℚ × ℚ) : grPairChunk p ≠ lit "GR " := by
  intro h
  have hc := congrArg List.length h
  simp only [grPairChunk, List.length_append, List.length_cons,
    length_pyLjust, lit, List.length_nil,
    show ("GR ".toList).length = 3 from rfl] at hc
  omega

/-- The `;`/`NC`/`X1` body write is never the bare `"GR "` marker. -/
theorem transectBodyChunk_ne_marker (vt : ValidatedTransect) :
    transectBodyChunk vt ≠ lit "GR " := by
  intro h
  have h2 := congrArg List.head? h
  have hb : (transectBodyChunk vt).head? = some ';' := rfl
  rw [hb] at h2
  exact absurd h2 (by decide)

/-- Counting `"GR "` markers over the GR chunk trace yields the batch
count. -/
theorem count_grChunks (bps : List (List ℚ × List ℚ)) :
    ((bps.map (fun bp =>
      lit "GR " :: ((bp.1.zip bp.2).map grPairChunk ++ [lit "\n"]))).flatten).count
        (lit "GR ") = bps.length := by
  induction bps with
  | nil => rfl
  | cons bp rest ih =>
    simp only [List.map_cons, List.flatten_cons]
    rw [List.count_append, ih]
    have hmap : ((bp.1.zip bp.2).map grPairChunk).count (lit "GR ") = 0 := by
      rw [List.count_eq_zero]
      intro hmem
      obtain ⟨p, _, hp⟩ := List.mem_map.mp hmem
      exact grPairChunk_ne_marker p hp
    rw [List.count_cons, List.count_append, hmap,
      show List.count (lit "GR ") [lit "\n"] = 0 from by decide,
      show (lit "GR " == lit "GR ") = true from by decide]
    simp [List.length_cons]
    omega

/-- Splitting each zipped batch back into pairs is the identity. -/
theorem zip_proj_eq (b : List (ℚ × ℚ)) :
    (b.map Prod.fst).zip (b.map Prod.snd) = b := by
  rw [List.zip_map']
  simp

/-- The GR batches of a transect are the 5-batches of the zipped
station/elevation data, componentwise. -/
theorem grBatches_eq (t : Transect)
    (hlen : t.elevation.length = t.station.length) :
    grBatches t = (batched 5 (t.elevation.zip t.station)).map
      (fun b => (b.map Prod.fst, b.map Prod.snd)) := by
  have hz : (t.elevation.zip t.station).length = t.elevation.length := by
    simp only [List.length_zip]
    omega
  rw [grBatches, batched, batched, batched, hz, ← hlen]
  exact batchedAux_zip _ _ _ hlen

/-- C5.  For a transect whose two data arrays share length `n ≥ 1`, the
serializer writes the section header, then exactly one combined
`;`/`NC`/`X1` write (one `NC` line and one `X1` line), then the `GR`
writes; the number of `"GR "` line markers is `⌈n / 5⌉`, every `GR`
line carries between one and five station/elevation pairs, and the last
`GR` line carries `n mod 5` pairs (five when 5 divides `n`), with no
trailing batch marker after it. -/
theorem transect_gr_batching (t : Transect) (nst : Nat)
    (hlen : t.elevation.length = t.station.length)
    (hn : 1 ≤ t.elevation.length) :
    transectMakeInp [⟨t, nst⟩] =
      lit "[TRANSECTS]\n;;Transect Data in HEC-2 format\n" ::
        transectBodyChunk ⟨t, nst⟩ :: grChunks t ∧
    (transectMakeInp [⟨t, nst⟩]).count (lit "GR ") =
      (t.elevation.length + 4) / 5 ∧
    (grBatches t).length = (t.elevation.length + 4) / 5 ∧
    (∀ bp ∈ grBatches t,
      1 ≤ (bp.1.zip bp.2).length ∧ (bp.1.zip bp.2).length ≤ 5) ∧
    (∃ bp, (grBatches t).getLast? = some bp ∧
      (bp.1.zip bp.2).length =
        if t.elevation.length % 5 = 0 then 5 else t.elevation.length % 5) := by
  have hz : (t.elevation.zip t.station).length = t.elevation.length := by
    simp only [List.length_zip]
    omega
  have hshape : transectMakeInp [⟨t, nst⟩] =
      lit "[TRANSECTS]\n;;Transect Data in HEC-2 format\n" ::
        transectBodyChunk ⟨t, nst⟩ :: grChunks t := by
    simp [transectMakeInp, transectEntityChunks]
  have hblen : (grBatches t).length = (t.elevation.length + 4) / 5 := by
    rw [grBatches_eq t hlen, List.length_map, batched,
      batchedAux_length _ _ (Nat.le_refl _), hz]
  refine ⟨hshape, ?_, hblen, ?_, ?_⟩
  · rw [hshape]
    rw [List.count_cons, List.count_cons]
    rw [show (lit "[TRANSECTS]\n;;Transect Data in HEC-2 format\n" ==
        lit "GR ") = false from by decide]
    rw [show (transectBodyChunk ⟨t, nst⟩ == lit "GR ") = false from
      beq_eq_false_iff_ne.mpr (transectBodyChunk_ne_marker ⟨t, nst⟩)]
    have hc : (grChunks t).count (lit "GR ") = (grBatches t).length :=
      count_grChunks (grBatches t)
    simp only [if_neg, Bool.false_eq_true, if_false, Nat.add_zero]
    rw [hc, hblen]
  · intro bp hbp
    rw [grBatches_eq t hlen] at hbp
    obtain ⟨b, hbmem, rfl⟩ := List.mem_map.mp hbp
    rw [zip_proj_eq]
    rw [batched] at hbmem
    exact batchedAux_mem_length _ _ (Nat.le_refl _) b hbmem
  · rw [grBatches_eq t hlen]
    have hne : t.elevation.zip t.station ≠ [] := by
      intro h
      rw [h] at hz
      simp at hz
      omega
    obtain ⟨b, hb, hblen2⟩ :=
      batchedAux_getLast (t.elevation.zip t.station).length _ (Nat.le_refl _) hne
    refine ⟨(b.map Prod.fst, b.map Prod.snd), ?_, ?_⟩
    · rw [getLast?_map_eq, batched, hb]
      rfl
    · rw [zip_proj_eq, hblen2, hz]

/-- C5 witness: the repository's own 11-station transect
(`tests/test_transects.py`) yields `⌈11/5⌉ = 3` GR batches, the last
carrying exactly one station/elevation pair. -/
theorem transect_gr_batching_witness :
    (grBatches
      { name := lit "transect1"
        station := [0, 1, 2, 3, 4, 5, 6, 7, 8, 9, 10]
        elevation := [10, 9, 8, 7, 6, 5, 6, 7, 8, 9, 10]
        nleft := 0, nright := 0, nchannel := 0, xleft := 1,
        xright := 3 }).length = 3 ∧
    (∃ bp, (grBatches
      { name := lit "transect1"
        station := [0, 1, 2, 3, 4, 5, 6, 7, 8, 9, 10]
        elevation := [10, 9, 8, 7, 6, 5, 6, 7, 8, 9, 10]
        nleft := 0, nright := 0, nchannel := 0, xleft := 1,
        xright := 3 }).getLast? = some bp ∧ (bp.1.zip bp.2).length = 1) := by
  have h := transect_gr_batching
    { name := lit "transect1"
      station := [0, 1, 2, 3, 4, 5, 6, 7, 8, 9, 10]
      elevation := [10, 9, 8, 7, 6, 5, 6, 7, 8, 9, 10]
      nleft := 0, nright := 0, nchannel := 0, xleft := 1, xright := 3 }
    11 (by decide) (by decide)
  refine ⟨by rw [h.2.2.1]; decide, ?_⟩
  obtain ⟨bp, h1, h2⟩ := h.2.2.2.2
  exact ⟨bp, h1, by rw [h2]; decide⟩

/-! ## Claim C2 — section presence in the assembled document

A section's bracketed header is written exactly once when its
collection argument is truthy (present and non-empty) and not at all
otherwise.  "Written" is read off the chunk trace: the header is the
first `stream.write` of the section's serializer.  To rule out a data
line *coinciding* with a header chunk, the theorem assumes the
caller-supplied names (and the title text) do not start with `'['` —
every data write then starts with a name, a comment marker, a digit or
a fixed keyword, never with `'['`. -/

/-- The optional sections of `assemble_inp`, in source order. -/
inductive Sec where
  | raingages | subcatchments | subareas | infiltration | junctions
  | outfalls | conduits | xsections | transects | timeseries | streets
  | inlets | inletUsages | mapSec | coordinates | vertices | polygons
  | reportSec
deriving DecidableEq, Repr

/-- The first `stream.write` of each optional section's serializer (the
chunk carrying the bracketed section name). -/
def secHeader : Sec → Chars
  | .raingages => lit "[RAINGAGES]\n;;Name           Format    Interval  SCF    Source    \n;;-------------- --------- --------- ------ ----------\n"
  | .subcatchments => lit "[SUBCATCHMENTS]\n"
  | .subareas => lit "[SUBAREAS]\n"
  | .infiltration => lit "[INFILTRATION]\n"
  | .junctions => lit "[JUNCTIONS]\n;;Name           Elevation  MaxDepth   InitDepth  SurDepth   Aponded    \n;;-------------- ---------- ---------- ---------- ---------- ---------- \n"
  | .outfalls => lit "[OUTFALLS]\n"
  | .conduits => lit "[CONDUITS]\n"
  | .xsections => lit "[XSECTIONS]\n"
  | .transects => lit "[TRANSECTS]\n;;Transect Data in HEC-2 format\n"
  | .timeseries => lit "[TIMESERIES]\n;;Name           Date       Time       Value     \n;;-------------- ---------- ---------- ----------\n"
  | .streets => lit "[STREETS]\n"
  | .inlets => lit "[INLETS]\n;;Name           Type             Parameters:\n;;-------------- ---------------- -----------\n"
  | .inletUsages => lit "[INLET_USAGE]\n;;Conduit        Inlet            Node             Number    %Clogged  Qmax      aLocal    wLocal    Placement\n;;-------------- ---------------- ---------------- --------- --------- --------- --------- --------- --------- ---------\n"
  | .mapSec => lit "[MAP]\n"
  | .coordinates => lit "[COORDINATES]\n;;Node           X-Coord            Y-Coord           \n;;-------------- ------------------ ------------------\n"
  | .vertices => lit "[VERTICES]\n;;Link           X-Coord            Y-Coord           \n;;-------------- ------------------ ------------------\n"
  | .polygons => lit "[POLYGONS]\n;;Subcatchment   X-Coord            Y-Coord           \n;;-------------- ------------------ ------------------\n"
  | .reportSec => lit "[REPORT]\n"

/-- Whether a section's argument is truthy in the Python sense (for
collections: present and non-empty; for the single-object `map` and
`report` arguments: present). -/
def secPresent (a : AssembleArgs) : Sec → Bool
  | .raingages => listTruthy a.raingages
  | .subcatchments => listTruthy a.subcatchments
  | .subareas => listTruthy a.subareas
  | .infiltration => listTruthy a.infiltration
  | .junctions => listTruthy a.junctions
  | .outfalls => listTruthy a.outfalls
  | .conduits => listTruthy a.conduits
  | .xsections => listTruthy a.xsections
  | .transects => listTruthy a.transects
  | .timeseries => listTruthy a.timeseries
  | .streets => listTruthy a.streets
  | .inlets => listTruthy a.inlets
  | .inletUsages => listTruthy a.inlet_usages
  | .mapSec => a.map.isSome
  | .coordinates => listTruthy a.coordinates
  | .vertices => listTruthy a.vertices
  | .polygons => listTruthy a.polygons
  | .reportSec => a.report.isSome

/-- A string that does not begin with `'['`. -/
def noBr (s : Chars) : Bool := s.head? != some '['

/-- All elements of an optional collection have a bracket-free
designated name. -/
def allNoBr (f : α → Chars) : Option (List α) → Bool
  | none => true
  | some l => l.all (fun x => noBr (f x))

/-- The caller-supplied free text of an `assemble_inp` call — the title
texts and every name that starts a data line — avoids a leading `'['`.
-/
def bracketFree (a : AssembleArgs) : Bool :=
  noBr a.title.header && noBr a.title.description &&
  allNoBr (fun r => r.name) a.raingages &&
  allNoBr (fun s => s.name) a.subcatchments &&
  allNoBr (fun x => x.subcatchment.name) a.subareas &&
  allNoBr (fun i => i.subcatchment.name) a.infiltration &&
  allNoBr (fun j => j.name) a.junctions &&
  allNoBr (fun o => o.name) a.outfalls &&
  allNoBr (fun c => c.name) a.conduits &&
  allNoBr (fun x => x.link.name) a.xsections &&
  allNoBr (fun t => t.name) a.timeseries &&
  allNoBr (fun st => st.name) a.streets &&
  allNoBr (fun i => i.name) a.inlets &&
  allNoBr (fun u => u.conduit.name) a.inlet_usages &&
  allNoBr (fun c => c.node.name) a.coordinates &&
  allNoBr (fun v => v.link.name) a.vertices &&
  allNoBr (fun v => v.subcatchment.name) a.polygons

/-- A chunk whose head is a known non-`'['` character never equals a
`'['`-headed key. -/
theorem head_ne_of_eq {c : Chars} {ch : Char} (h : c.head? = some ch)
    (hne : ch ≠ '[') : c.head? ≠ some '[' := by
  rw [h]
  simp [hne]

/-- A chunk starting with a left-justified bracket-free field does not
begin with `'['`. -/
theorem head_field_ne (nm rest : Chars) (w : Nat) (hw : 0 < w)
    (h : noBr nm = true) : (pyLjust nm w ++ rest).head? ≠ some '[' := by
  intro hcontra
  cases nm with
  | nil =>
    cases w with
    | zero => exact absurd hw (lt_irrefl 0)
    | succ k =>
      rw [show (pyLjust [] (k + 1) ++ rest).head? = some ' ' from rfl] at hcontra
      simp at hcontra
  | cons c cs =>
    rw [show (pyLjust (c :: cs) w ++ rest).head? = some c from rfl] at hcontra
    rw [Option.some_inj] at hcontra
    subst hcontra
    simp [noBr] at h

/-- A `'['`-headed key never occurs among bracket-free chunks. -/
theorem count_eq_zero_of_heads (key : Chars) (hkey : key.head? = some '[')
    (L : List Chars) (h : ∀ c ∈ L, c.head? ≠ some '[') : L.count key = 0 := by
  rw [List.count_eq_zero]
  intro hmem
  exact h key hmem hkey

/-- Counting a `'['`-headed key over a header chunk followed by
bracket-free data chunks. -/
theorem count_header_data (hdr : Chars) (data : List Chars) (key : Chars)
    (hkey : key.head? = some '[')
    (hdata : ∀ c ∈ data, c.head? ≠ some '[') :
    (hdr :: data).count key = if hdr = key then 1 else 0 := by
  rw [List.count_cons, count_eq_zero_of_heads key hkey data hdata]
  simp [beq_iff_eq]

/-- Heads of mapped per-entity data chunks, from a per-entity bound. -/
theorem data_heads_map (l : List α) (g : α → Chars)
    (h : ∀ x ∈ l, (g x).head? ≠ some '[') :
    ∀ c ∈ l.map g, c.head? ≠ some '[' := by
  intro c hc
  obtain ⟨x, hx, rfl⟩ := List.mem_map.mp hc
  exact h x hx

/-- Counting a `'['`-headed key over one optional-collection section
block of `assemble_inp`. -/
theorem count_optSection (o : Option (List α)) (mk : List α → List Chars)
    (key hdr : Chars) (hkey : key.head? = some '[')
    (hmk : ∀ l, o = some l → (mk l).count key = if hdr = key then 1 else 0) :
    (optSection o mk).count key =
      if listTruthy o then (if hdr = key then 1 else 0) else 0 := by
  cases o with
  | none => rfl
  | some l =>
    simp only [optSection, listTruthy]
    by_cases hl : l.isEmpty
    · simp [hl]
    · simp only [hl, Bool.not_false, Bool.false_eq_true, if_false, if_true]
      rw [List.count_append, hmk l rfl,
        count_eq_zero_of_heads key hkey [lit "\n\n"]
          (by intro c hc; simp at hc; subst hc; decide)]
      omega

/-- Counting a `'['`-headed key over the `map`/`report` block of
`assemble_inp`. -/
theorem count_optSingle (o : Option β) (mk : β → List Chars)
    (key hdr : Chars) (hkey : key.head? = some '[')
    (hmk : ∀ x, o = some x → (mk x).count key = if hdr = key then 1 else 0) :
    (optSingle o mk).count key =
      if o.isSome then (if hdr = key then 1 else 0) else 0 := by
  cases o with
  | none => rfl
  | some x =>
    simp only [optSingle, Option.isSome, if_true]
    rw [List.count_append, hmk x rfl,
      count_eq_zero_of_heads key hkey [lit "\n\n"]
        (by intro c hc; simp at hc; subst hc; decide)]
    omega

/-- A chunk that is non-empty and does not start with `'['`. -/
def goodChunk (A : Chars) : Prop := A.head? ≠ some '[' ∧ A ≠ []

/-- A good chunk does not start with `'['`. -/
theorem goodChunk_head {A : Chars} (h : goodChunk A) : A.head? ≠ some '[' :=
  h.1

/-- Appending to the right of a good chunk keeps it good. -/
theorem goodChunk_append (A B : Chars) (h : goodChunk A) :
    goodChunk (A ++ B) := by
  obtain ⟨h1, h2⟩ := h
  cases A with
  | nil => exact absurd rfl h2
  | cons c cs => exact ⟨by simpa using h1, by simp⟩

/-- A left-justified bracket-free field of positive width is a good
chunk. -/
theorem goodChunk_pyLjust (nm : Chars) (w : Nat) (hw : 0 < w)
    (h : noBr nm = true) : goodChunk (pyLjust nm w) := by
  constructor
  · exact fun hcon => head_field_ne nm [] w hw h (by simpa using hcon)
  · cases nm with
    | nil =>
      cases w with
      | zero => omega
      | succ k => simp [pyLjust, spaces]
    | cons c cs => simp [pyLjust]

/-- A chunk starting with a known non-`'['` character is good. -/
theorem goodChunk_cons (c : Char) (A : Chars) (h : c ≠ '[') :
    goodChunk (c :: A) := ⟨by simpa using h, by simp⟩

/-- Every head character reachable by the digit accumulator is a
decimal digit character. -/
theorem natCharsAux_head (fuel : Nat) :
    ∀ (n : Nat) (acc : Chars),
      (∀ c ∈ acc.head?, ∃ m, m < 10 ∧ c = Nat.digitChar m) →
      ∀ c ∈ (natCharsAux fuel n acc).head?, ∃ m, m < 10 ∧ c = Nat.digitChar m := by
  induction fuel with
  | zero => exact fun n acc hacc => hacc
  | succ f ih =>
    intro n acc hacc
    simp only [natCharsAux]
    split
    · intro c hc
      simp only [List.head?_cons, Option.mem_def, Option.some.injEq] at hc
      exact ⟨n % 10, Nat.mod_lt n (by omega), hc.symm⟩
    · exact ih (n / 10) _ (by
        intro c hc
        simp only [List.head?_cons, Option.mem_def, Option.some.injEq] at hc
        exact ⟨n % 10, Nat.mod_lt n (by omega), hc.symm⟩)

/-- The digit accumulator never discards a non-empty accumulator. -/
theorem natCharsAux_ne_nil (fuel : Nat) :
    ∀ (n : Nat) (acc : Chars), acc ≠ [] → natCharsAux fuel n acc ≠ [] := by
  induction fuel with
  | zero => exact fun n acc h => h
  | succ f ih =>
    intro n acc h
    simp only [natCharsAux]
    split
    · simp
    · exact ih (n / 10) _ (by simp)

/-- At positive fuel the digit accumulator returns a non-empty list. -/
theorem natCharsAux_succ_ne_nil (f n : Nat) (acc : Chars) :
    natCharsAux (f + 1) n acc ≠ [] := by
  simp only [natCharsAux]
  split
  · simp
  · exact natCharsAux_ne_nil f (n / 10) _ (by simp)

/-- `str(n)` of a natural number is never empty. -/
theorem natChars_ne_nil (n : Nat) : natChars n ≠ [] :=
  natCharsAux_succ_ne_nil n n []

/-- Digit characters are never `'['`. -/
theorem digitChar_ne_bracket (m : Nat) (hm : m < 10) :
    Nat.digitChar m ≠ '[' := by
  interval_cases m <;> decide

/-- `str(n)` of a natural number never starts with `'['`. -/
theorem natChars_head (n : Nat) : (natChars n).head? ≠ some '[' := by
  intro hcon
  obtain ⟨m, hm, he⟩ := natCharsAux_head (n + 1) n []
    (by intro c hc; simp at hc) '[' (Option.mem_def.mpr hcon)
  exact digitChar_ne_bracket m hm he.symm

/-- `str(n)` of a natural number is a good chunk. -/
theorem goodChunk_natChars (n : Nat) : goodChunk (natChars n) :=
  ⟨natChars_head n, natChars_ne_nil n⟩

/-- A fixed-point digit rendering is a good chunk. -/
theorem goodChunk_natFixed (m prec : Nat) : goodChunk (natFixed m prec) := by
  rw [natFixed]
  exact goodChunk_append _ _ (goodChunk_natChars _)

/-- A `"%.pf"`-formatted float is a good chunk (it starts with a digit
or a minus sign). -/
theorem goodChunk_fmtF (prec : Nat) (q : ℚ) : goodChunk (fmtF prec q) := by
  have h : ∀ z : Int,
      goodChunk (if z < 0 then '-' :: natFixed z.natAbs prec
        else natFixed z.toNat prec) := by
    intro z
    split
    · exact goodChunk_cons _ _ (by decide)
    · exact goodChunk_natFixed _ _
  exact h _

/-- A `"%.pf"`-formatted float never starts with `'['`. -/
theorem noBr_fmtF (prec : Nat) (q : ℚ) : noBr (fmtF prec q) = true := by
  simp only [noBr, bne_iff_ne, ne_eq]
  exact (goodChunk_fmtF prec q).1

/-- Unpacking the `noBr` test. -/
theorem noBr_head (s : Chars) (h : noBr s = true) : s.head? ≠ some '[' := by
  simpa [noBr, bne_iff_ne] using h

/-- A bracket-free string followed by a newline never starts with
`'['`. -/
theorem append_newline_head (s : Chars) (h : noBr s = true) :
    (s ++ ['\n']).head? ≠ some '[' := by
  cases s with
  | nil => decide
  | cons c cs =>
    intro hcon
    simp only [List.cons_append, List.head?_cons, Option.some.injEq] at hcon
    subst hcon
    simp [noBr] at h

/-- A junction data line starts with the junction's name field. -/
theorem junction_data_head (j : Junction) (h : noBr j.name = true) :
    (j.asInp ++ ['\n']).head? ≠ some '[' := by
  simp only [Junction.asInp, List.append_assoc, List.cons_append]
  exact head_field_ne _ _ _ (by omega) h

/-- An outfall data line starts with the outfall's name field. -/
theorem outfall_data_head (o : Outfall) (h : noBr o.name = true) :
    (o.asInp ++ ['\n']).head? ≠ some '[' := by
  simp only [Outfall.asInp, List.append_assoc, List.cons_append]
  exact head_field_ne _ _ _ (by omega) h

/-- A subcatchment data line starts with the subcatchment's name
field. -/
theorem subcatchment_data_head (s : Subcatchment) (h : noBr s.name = true) :
    (s.asInp ++ ['\n']).head? ≠ some '[' := by
  simp only [Subcatchment.asInp, List.append_assoc, List.cons_append]
  exact head_field_ne _ _ _ (by omega) h

/-- A subarea data line starts with its subcatchment's name field. -/
theorem subarea_data_head (a : Subarea)
    (h : noBr a.subcatchment.name = true) :
    (a.asInp ++ ['\n']).head? ≠ some '[' := by
  simp only [Subarea.asInp, List.append_assoc, List.cons_append]
  exact head_field_ne _ _ _ (by omega) h

/-- An infiltration data line starts with its subcatchment's name
field. -/
theorem infiltration_data_head (i : Infiltration)
    (h : noBr i.subcatchment.name = true) :
    (i.asInp ++ ['\n']).head? ≠ some '[' := by
  simp only [Infiltration.asInp, List.append_assoc, List.cons_append]
  exact head_field_ne _ _ _ (by omega) h

/-- A conduit data line starts with the conduit's name field. -/
theorem conduit_data_head (c : Conduit) (h : noBr c.name = true) :
    (c.asInp ++ ['\n']).head? ≠ some '[' := by
  simp only [Conduit.asInp, List.append_assoc, List.cons_append]
  exact head_field_ne _ _ _ (by omega) h

/-- A street data line starts with the street's name field. -/
theorem street_data_head (s : Street) (h : noBr s.name = true) :
    (s.asInp ++ ['\n']).head? ≠ some '[' := by
  simp only [Street.asInp, List.append_assoc, List.cons_append]
  exact head_field_ne _ _ _ (by omega) h

/-- An inlet-usage data line starts with its conduit's name field. -/
theorem inletUsage_data_head (u : InletUsage)
    (h : noBr u.conduit.name = true) :
    (u.asInp ++ ['\n']).head? ≠ some '[' := by
  simp only [InletUsage.asInp, List.append_assoc, List.cons_append]
  exact head_field_ne _ _ _ (by omega) h

/-- A coordinate data line starts with its node's name field. -/
theorem coordinate_data_head (c : Coordinate)
    (h : noBr c.node.name = true) :
    (c.asInp ++ ['\n']).head? ≠ some '[' := by
  simp only [Coordinate.asInp, List.append_assoc, List.cons_append]
  exact head_field_ne _ _ _ (by omega) h

/-- A vertex data line starts with its link's name field. -/
theorem linkVertex_data_head (v : LinkVertex)
    (h : noBr v.link.name = true) :
    (v.asInp ++ ['\n']).head? ≠ some '[' := by
  simp only [LinkVertex.asInp, List.append_assoc, List.cons_append]
  exact head_field_ne _ _ _ (by omega) h

/-- A polygon data line starts with its subcatchment's name field. -/
theorem polygonVertex_data_head (v : PolygonVertex)
    (h : noBr v.subcatchment.name = true) :
    (v.asInp ++ ['\n']).head? ≠ some '[' := by
  simp only [PolygonVertex.asInp, List.append_assoc, List.cons_append]
  exact head_field_ne _ _ _ (by omega) h

/-- A rain-gage data line starts with the gage's name field (or with
`"None"` on the unrecognised-mode fallthrough). -/
theorem raingage_data_head (r : Raingage) (h : noBr r.name = true) :
    (r.asInp ++ ['\n']).head? ≠ some '[' := by
  simp only [Raingage.asInp]
  split_ifs
  · simp only [List.append_assoc, List.cons_append]
    exact head_field_ne _ _ _ (by omega) h
  · simp only [List.append_assoc, List.cons_append]
    exact head_field_ne _ _ _ (by omega) h
  · exact head_ne_of_eq rfl (by decide)

/-- A cross-section data line starts with its link's name field
whatever the shape variant. -/
theorem xsection_data_head (x : XSection) (h : noBr x.link.name = true) :
    (x.asInp ++ ['\n']).head? ≠ some '[' := by
  obtain ⟨lnk, sh, brl, cul, crv, tst, stt⟩ := x
  cases sh <;>
    (simp only [XSection.asInp, List.append_assoc, List.cons_append]
     exact head_field_ne _ _ _ (by omega) h)

/-- An inlet data line starts with the inlet's name field (or with
`"None"` on the unrecognised-type fallthrough). -/
theorem inlet_data_head (i : Inlet) (h : noBr i.name = true) :
    (i.asInp ++ ['\n']).head? ≠ some '[' := by
  obtain ⟨nm, ty, ln, wd, ht, tg, ao, vs, th, dc, rc⟩ := i
  simp only [Inlet.asInp]
  split_ifs
  all_goals first
  | exact head_ne_of_eq rfl (by decide)
  | (cases dc <;>
      (simp only [List.append_assoc, List.cons_append]
       exact head_field_ne _ _ _ (by omega) h))

/-- Every timeseries data line starts with the series' name field. -/
theorem tsDataChunks_heads (nm : Chars) (h : noBr nm = true) :
    ∀ (date : Chars) (pairs : List (ℚ × ℚ)) (c : Chars),
      c ∈ tsDataChunks nm date pairs → c.head? ≠ some '[' := by
  intro date pairs
  induction pairs generalizing date with
  | nil => intro c hc; simp [tsDataChunks] at hc
  | cons p rest ih =>
    obtain ⟨t, v⟩ := p
    intro c hc
    simp only [tsDataChunks, List.mem_cons] at hc
    rcases hc with rfl | hc
    · simp only [List.append_assoc, List.cons_append]
      exact head_field_ne _ _ _ (by omega) h
    · exact ih [] c hc

/-- No chunk written for one timeseries (description lines and data
lines) starts with `'['`. -/
theorem timeseries_entity_heads (ts : Timeseries) (h : noBr ts.name = true) :
    ∀ c ∈ timeseriesEntityChunks ts, c.head? ≠ some '[' := by
  intro c hc
  simp only [timeseriesEntityChunks, List.mem_append] at hc
  rcases hc with hl | hr
  · split at hl
    · simp only [List.mem_singleton] at hl
      subst hl
      decide
    · obtain ⟨w, hw, rfl⟩ := List.mem_map.mp hl
      exact head_ne_of_eq rfl (by decide)
  · exact tsDataChunks_heads ts.name h ts.date_ts _ c hr

/-- The combined `;`/`NC`/`X1` chunk of a transect starts with `';'`. -/
theorem transect_body_head (vt : ValidatedTransect) :
    (transectBodyChunk vt).head? ≠ some '[' :=
  head_ne_of_eq (show (transectBodyChunk vt).head? = some ';' from rfl)
    (by decide)

/-- No `GR`-line chunk of a transect starts with `'['` (markers start
with `'G'`, pair chunks with a formatted float, terminators with a
newline). -/
theorem grChunks_heads (t : Transect) :
    ∀ c ∈ grChunks t, c.head? ≠ some '[' := by
  intro c hc
  simp only [grChunks, List.mem_flatten] at hc
  obtain ⟨l, hl, hcl⟩ := hc
  obtain ⟨bp, hbp, rfl⟩ := List.mem_map.mp hl
  rcases List.mem_cons.mp hcl with rfl | hc2
  · exact head_ne_of_eq rfl (by decide)
  · rcases List.mem_append.mp hc2 with hm | hm
    · obtain ⟨p, hp, rfl⟩ := List.mem_map.mp hm
      simp only [grPairChunk, List.append_assoc, List.cons_append]
      exact head_field_ne _ _ _ (by omega) (noBr_fmtF _ _)
    · simp only [List.mem_singleton] at hm
      subst hm
      exact head_ne_of_eq rfl (by decide)

/-- No chunk written for one transect starts with `'['`. -/
theorem transect_entity_heads (vt : ValidatedTransect) :
    ∀ c ∈ transectEntityChunks vt, c.head? ≠ some '[' := by
  intro c hc
  rcases List.mem_cons.mp hc with rfl | hc2
  · exact transect_body_head vt
  · exact grChunks_heads vt.t c hc2

/-- `allNoBr` specialised to the members of a present collection. -/
theorem allNoBr_mem {f : α → Chars} {o : Option (List α)}
    (h : allNoBr f o = true) {l : List α} (hl : o = some l) :
    ∀ x ∈ l, noBr (f x) = true := by
  subst hl
  simpa [allNoBr, List.all_eq_true] using h

/-- The separator written by `add_empty_line` never counts as a section
header. -/
theorem count_sep (key : Chars) (hkey : key.head? = some '[') :
    ([lit "\n\n"] : List Chars).count key = 0 :=
  count_eq_zero_of_heads key hkey _
    (by intro c hc; simp only [List.mem_singleton] at hc; subst hc; decide)

/-- `Raingage.make_inp` writes the `[RAINGAGES]` header exactly once
and no other section header. -/
theorem count_raingageMakeInp (l : List Raingage) (key : Chars)
    (hkey : key.head? = some '[') (h : ∀ r ∈ l, noBr r.name = true) :
    (raingageMakeInp l).count key =
      if secHeader .raingages = key then 1 else 0 :=
  count_header_data _ _ key hkey
    (data_heads_map l _ (fun r hr => raingage_data_head r (h r hr)))

/-- `Junction.make_inp` writes the `[JUNCTIONS]` header exactly once
and no other section header. -/
theorem count_junctionMakeInp (l : List Junction) (key : Chars)
    (hkey : key.head? = some '[') (h : ∀ j ∈ l, noBr j.name = true) :
    (junctionMakeInp l).count key =
      if secHeader .junctions = key then 1 else 0 :=
  count_header_data _ _ key hkey
    (data_heads_map l _ (fun j hj => junction_data_head j (h j hj)))

/-- `Inlet.make_inp` writes the `[INLETS]` header exactly once and no
other section header. -/
theorem count_inletMakeInp (l : List Inlet) (key : Chars)
    (hkey : key.head? = some '[') (h : ∀ i ∈ l, noBr i.name = true) :
    (inletMakeInp l).count key = if secHeader .inlets = key then 1 else 0 :=
  count_header_data _ _ key hkey
    (data_heads_map l _ (fun i hi => inlet_data_head i (h i hi)))

/-- `InletUsage.make_inp` writes the `[INLET_USAGE]` header exactly
once and no other section header. -/
theorem count_inletUsageMakeInp (l : List InletUsage) (key : Chars)
    (hkey : key.head? = some '[')
    (h : ∀ u ∈ l, noBr u.conduit.name = true) :
    (inletUsageMakeInp l).count key =
      if secHeader .inletUsages = key then 1 else 0 :=
  count_header_data _ _ key hkey
    (data_heads_map l _ (fun u hu => inletUsage_data_head u (h u hu)))

/-- `Coordinate.make_inp` writes the `[COORDINATES]` header exactly
once and no other section header. -/
theorem count_coordinateMakeInp (l : List Coordinate) (key : Chars)
    (hkey : key.head? = some '[') (h : ∀ c ∈ l, noBr c.node.name = true) :
    (coordinateMakeInp l).count key =
      if secHeader .coordinates = key then 1 else 0 :=
  count_header_data _ _ key hkey
    (data_heads_map l _ (fun c hc => coordinate_data_head c (h c hc)))

/-- `LinkVertex.make_inp` writes the `[VERTICES]` header exactly once
and no other section header. -/
theorem count_linkVertexMakeInp (l : List LinkVertex) (key : Chars)
    (hkey : key.head? = some '[') (h : ∀ v ∈ l, noBr v.link.name = true) :
    (linkVertexMakeInp l).count key =
      if secHeader .vertices = key then 1 else 0 :=
  count_header_data _ _ key hkey
    (data_heads_map l _ (fun v hv => linkVertex_data_head v (h v hv)))

/-- `PolygonVertex.make_inp` writes the `[POLYGONS]` header exactly
once and no other section header. -/
theorem count_polygonVertexMakeInp (l : List PolygonVertex) (key : Chars)
    (hkey : key.head? = some '[')
    (h : ∀ v ∈ l, noBr v.subcatchment.name = true) :
    (polygonVertexMakeInp l).count key =
      if secHeader .polygons = key then 1 else 0 :=
  count_header_data _ _ key hkey
    (data_heads_map l _ (fun v hv => polygonVertex_data_head v (h v hv)))

/-- `Subcatchment.make_inp` writes the `[SUBCATCHMENTS]` header exactly
once and no other section header. -/
theorem count_subcatchmentMakeInp (l : List Subcatchment) (key : Chars)
    (hkey : key.head? = some '[') (h : ∀ s ∈ l, noBr s.name = true) :
    (subcatchmentMakeInp l).count key =
      if secHeader .subcatchments = key then 1 else 0 := by
  apply count_header_data _ _ key hkey
  intro c hc
  rcases List.mem_cons.mp hc with rfl | hc2
  · exact head_ne_of_eq rfl (by decide)
  · exact data_heads_map l _ (fun s hs => subcatchment_data_head s (h s hs)) c hc2

/-- `Subarea.make_inp` writes the `[SUBAREAS]` header exactly once and
no other section header. -/
theorem count_subareaMakeInp (l : List Subarea) (key : Chars)
    (hkey : key.head? = some '[')
    (h : ∀ a ∈ l, noBr a.subcatchment.name = true) :
    (subareaMakeInp l).count key =
      if secHeader .subareas = key then 1 else 0 := by
  apply count_header_data _ _ key hkey
  intro c hc
  rcases List.mem_cons.mp hc with rfl | hc2
  · exact head_ne_of_eq rfl (by decide)
  · exact data_heads_map l _ (fun a ha => subarea_data_head a (h a ha)) c hc2

/-- `Infiltration.make_inp` writes the `[INFILTRATION]` header exactly
once and no other section header. -/
theorem count_infiltrationMakeInp (l : List Infiltration) (key : Chars)
    (hkey : key.head? = some '[')
    (h : ∀ i ∈ l, noBr i.subcatchment.name = true) :
    (infiltrationMakeInp l).count key =
      if secHeader .infiltration = key then 1 else 0 := by
  apply count_header_data _ _ key hkey
  intro c hc
  rcases List.mem_cons.mp hc with rfl | hc2
  · exact head_ne_of_eq rfl (by decide)
  · exact data_heads_map l _ (fun i hi => infiltration_data_head i (h i hi)) c hc2

/-- `Outfall.make_inp` writes the `[OUTFALLS]` header exactly once and
no other section header. -/
theorem count_outfallMakeInp (l : List Outfall) (key : Chars)
    (hkey : key.head? = some '[') (h : ∀ o ∈ l, noBr o.name = true) :
    (outfallMakeInp l).count key =
      if secHeader .outfalls = key then 1 else 0 := by
  apply count_header_data _ _ key hkey
  intro c hc
  rcases List.mem_cons.mp hc with rfl | hc2
  · exact head_ne_of_eq rfl (by decide)
  · exact data_heads_map l _ (fun o ho => outfall_data_head o (h o ho)) c hc2

/-- `Conduit.make_inp` writes the `[CONDUITS]` header exactly once and
no other section header. -/
theorem count_conduitMakeInp (l : List Conduit) (key : Chars)
    (hkey : key.head? = some '[') (h : ∀ c ∈ l, noBr c.name = true) :
    (conduitMakeInp l).count key =
      if secHeader .conduits = key then 1 else 0 := by
  apply count_header_data _ _ key hkey
  intro c hc
  rcases List.mem_cons.mp hc with rfl | hc2
  · exact head_ne_of_eq rfl (by decide)
  · exact data_heads_map l _ (fun cd hcd => conduit_data_head cd (h cd hcd)) c hc2

/-- `XSection.make_inp` writes the `[XSECTIONS]` header exactly once
and no other section header. -/
theorem count_xsectionMakeInp (l : List XSection) (key : Chars)
    (hkey : key.head? = some '[') (h : ∀ x ∈ l, noBr x.link.name = true) :
    (xsectionMakeInp l).count key =
      if secHeader .xsections = key then 1 else 0 := by
  apply count_header_data _ _ key hkey
  intro c hc
  rcases List.mem_cons.mp hc with rfl | hc2
  · exact head_ne_of_eq rfl (by decide)
  · exact data_heads_map l _ (fun x hx => xsection_data_head x (h x hx)) c hc2

/-- `Street.make_inp` writes the `[STREETS]` header exactly once and no
other section header. -/
theorem count_streetMakeInp (l : List Street) (key : Chars)
    (hkey : key.head? = some '[') (h : ∀ s ∈ l, noBr s.name = true) :
    (streetMakeInp l).count key =
      if secHeader .streets = key then 1 else 0 := by
  apply count_header_data _ _ key hkey
  intro c hc
  rcases List.mem_cons.mp hc with rfl | hc2
  · exact head_ne_of_eq rfl (by decide)
  · exact data_heads_map l _ (fun s hs => street_data_head s (h s hs)) c hc2

/-- `Transect.make_inp` writes the `[TRANSECTS]` header exactly once
and no other section header (its data chunks start with `';'`, `'G'`,
digits, a minus sign or a newline). -/
theorem count_transectMakeInp (l : List ValidatedTransect) (key : Chars)
    (hkey : key.head? = some '[') :
    (transectMakeInp l).count key =
      if secHeader .transects = key then 1 else 0 := by
  apply count_header_data _ _ key hkey
  intro c hc
  simp only [List.mem_flatten] at hc
  obtain ⟨sub, hsub, hcsub⟩ := hc
  obtain ⟨vt, hvt, rfl⟩ := List.mem_map.mp hsub
  exact transect_entity_heads vt c hcsub

/-- `Timeseries.make_inp` writes the `[TIMESERIES]` header exactly once
and no other section header. -/
theorem count_timeseriesMakeInp (l : List Timeseries) (key : Chars)
    (hkey : key.head? = some '[') (h : ∀ ts ∈ l, noBr ts.name = true) :
    (timeseriesMakeInp l).count key =
      if secHeader .timeseries = key then 1 else 0 := by
  apply count_header_data _ _ key hkey
  intro c hc
  simp only [List.mem_flatten] at hc
  obtain ⟨sub, hsub, hcsub⟩ := hc
  obtain ⟨ts, hts, rfl⟩ := List.mem_map.mp hsub
  exact timeseries_entity_heads ts (h ts hts) c hcsub

/-- `Map.make_inp` writes the `[MAP]` header exactly once and no other
section header. -/
theorem count_mapMakeInp (m : Map) (key : Chars)
    (hkey : key.head? = some '[') :
    (mapMakeInp m).count key = if secHeader .mapSec = key then 1 else 0 := by
  apply count_header_data _ _ key hkey
  intro c hc
  rcases List.mem_cons.mp hc with rfl | hc2
  · exact head_ne_of_eq rfl (by decide)
  · simp only [List.mem_singleton] at hc2
    subst hc2
    exact head_ne_of_eq rfl (by decide)

/-- `Report.make_inp` writes the `[REPORT]` header exactly once and no
other section header. -/
theorem count_reportMakeInp (r : Report) (key : Chars)
    (hkey : key.head? = some '[') :
    (reportMakeInp r).count key =
      if secHeader .reportSec = key then 1 else 0 := by
  apply count_header_data _ _ key hkey
  intro c hc
  simp only [List.mem_cons, List.not_mem_nil, or_false] at hc
  rcases hc with rfl | rfl | rfl | rfl | rfl | rfl | rfl | rfl | rfl
  all_goals exact head_ne_of_eq rfl (by decide)

/-- `Title.make_inp` writes the `[TITLE]` header exactly once and, for
bracket-free title texts, no other section header. -/
theorem count_titleMakeInp (t : Title) (key : Chars)
    (hkey : key.head? = some '[')
    (h1 : noBr t.header = true) (h2 : noBr t.description = true) :
    (titleMakeInp t).count key =
      if lit "[TITLE]\n;;Project Title/Notes\n" = key then 1 else 0 := by
  apply count_header_data _ _ key hkey
  intro c hc
  rcases List.mem_cons.mp hc with rfl | hc2
  · exact append_newline_head t.header h1
  · simp only [List.mem_singleton] at hc2
    subst hc2
    exact noBr_head _ h2

/-- `Options.make_inp` writes the `[OPTIONS]` header exactly once and
no other section header (every data line starts with an option
keyword). -/
theorem count_optionsMakeInp (o : Options) (key : Chars)
    (hkey : key.head? = some '[') :
    (optionsMakeInp o).count key =
      if lit "[OPTIONS]\n;;Option             Value\n" = key then 1 else 0 := by
  apply count_header_data _ _ key hkey
  intro c hc
  simp only [List.mem_cons, List.not_mem_nil, or_false] at hc
  rcases hc with rfl | rfl | rfl | rfl | rfl | rfl | rfl | rfl | rfl | rfl |
    rfl | rfl | rfl | rfl | rfl | rfl | rfl | rfl | rfl | rfl |
    rfl | rfl | rfl | rfl | rfl | rfl | rfl | rfl | rfl | rfl |
    rfl | rfl | rfl | rfl | rfl | rfl | rfl | rfl | rfl
  all_goals exact head_ne_of_eq rfl (by decide)

set_option maxRecDepth 16384 in
/-- C2: for every `assemble_inp` call (any title, options and any
combination of optional section arguments) whose caller-supplied texts
are bracket-free, the trace of written chunks contains a section's
header chunk exactly once when that section's argument is truthy
(present and, for collections, non-empty), and not at all when the
argument is absent (`None`) or empty — sections are omitted iff their
collection is absent or empty, and every non-empty collection yields
exactly one section. -/
theorem assemble_section_presence (a : AssembleArgs) (s : Sec)
    (hbf : bracketFree a = true) :
    (assembleChunks a).count (secHeader s) =
      if secPresent a s then 1 else 0 := by
  have hkey : (secHeader s).head? = some '[' := by cases s <;> rfl
  simp only [bracketFree, Bool.and_eq_true] at hbf
  obtain ⟨⟨⟨⟨⟨⟨⟨⟨⟨⟨⟨⟨⟨⟨⟨⟨h1, h2⟩, h3⟩, h4⟩, h5⟩, h6⟩, h7⟩, h8⟩, h9⟩,
    h10⟩, h11⟩, h12⟩, h13⟩, h14⟩, h15⟩, h16⟩, h17⟩ := hbf
  unfold assembleChunks
  simp only [List.count_append]
  rw [count_titleMakeInp a.title _ hkey h1 h2,
    count_optionsMakeInp a.options _ hkey,
    count_sep _ hkey,
    count_optSection a.raingages raingageMakeInp _ _ hkey
      (fun l hl => count_raingageMakeInp l _ hkey (allNoBr_mem h3 hl)),
    count_optSection a.subcatchments subcatchmentMakeInp _ _ hkey
      (fun l hl => count_subcatchmentMakeInp l _ hkey (allNoBr_mem h4 hl)),
    count_optSection a.subareas subareaMakeInp _ _ hkey
      (fun l hl => count_subareaMakeInp l _ hkey (allNoBr_mem h5 hl)),
    count_optSection a.infiltration infiltrationMakeInp _ _ hkey
      (fun l hl => count_infiltrationMakeInp l _ hkey (allNoBr_mem h6 hl)),
    count_optSection a.junctions junctionMakeInp _ _ hkey
      (fun l hl => count_junctionMakeInp l _ hkey (allNoBr_mem h7 hl)),
    count_optSection a.outfalls outfallMakeInp _ _ hkey
      (fun l hl => count_outfallMakeInp l _ hkey (allNoBr_mem h8 hl)),
    count_optSection a.conduits conduitMakeInp _ _ hkey
      (fun l hl => count_conduitMakeInp l _ hkey (allNoBr_mem h9 hl)),
    count_optSection a.xsections xsectionMakeInp _ _ hkey
      (fun l hl => count_xsectionMakeInp l _ hkey (allNoBr_mem h10 hl)),
    count_optSection a.transects transectMakeInp _ _ hkey
      (fun l hl => count_transectMakeInp l _ hkey),
    count_optSection a.timeseries timeseriesMakeInp _ _ hkey
      (fun l hl => count_timeseriesMakeInp l _ hkey (allNoBr_mem h11 hl)),
    count_optSection a.streets streetMakeInp _ _ hkey
      (fun l hl => count_streetMakeInp l _ hkey (allNoBr_mem h12 hl)),
    count_optSection a.inlets inletMakeInp _ _ hkey
      (fun l hl => count_inletMakeInp l _ hkey (allNoBr_mem h13 hl)),
    count_optSection a.inlet_usages inletUsageMakeInp _ _ hkey
      (fun l hl => count_inletUsageMakeInp l _ hkey (allNoBr_mem h14 hl)),
    count_optSingle a.map mapMakeInp _ _ hkey
      (fun m hm => count_mapMakeInp m _ hkey),
    count_optSection a.coordinates coordinateMakeInp _ _ hkey
      (fun l hl => count_coordinateMakeInp l _ hkey (allNoBr_mem h15 hl)),
    count_optSection a.vertices linkVertexMakeInp _ _ hkey
      (fun l hl => count_linkVertexMakeInp l _ hkey (allNoBr_mem h16 hl)),
    count_optSection a.polygons polygonVertexMakeInp _ _ hkey
      (fun l hl => count_polygonVertexMakeInp l _ hkey (allNoBr_mem h17 hl)),
    count_optSingle a.report reportMakeInp _ _ hkey
      (fun r hr => count_reportMakeInp r _ hkey)]
  cases s <;> simp +decide [secHeader, secPresent]

/-- Witness for C2: a call with only `junctions := [j1]` passed and
default (bracket-free) title/options writes the `[JUNCTIONS]` header
exactly once. -/
theorem assemble_section_presence_witness :
    bracketFree
        { junctions := some [{ name := lit "j1", elevation := 150 }] } = true ∧
      (assembleChunks
          { junctions := some [{ name := lit "j1", elevation := 150 }] }).count
          (secHeader .junctions) =
        if secPresent
            { junctions := some [{ name := lit "j1", elevation := 150 }] }
            .junctions
          then 1 else 0 :=
  ⟨by decide, assemble_section_presence _ .junctions (by decide)⟩

end Swmming
